import Mathlib

/-!
FST_semi_fly_mex: the MATLAB gateway of the S2Kit semi-naive spherical harmonic transform.

A shallow embedding of `mexFunction` of `FST_semi_fly_mex.c`.

* C `int` values are mathematical integers (`Int`); `size_t` values are `Nat`.
  Signed overflow is undefined behaviour in C and is outside the model.
* A C `double *` is a `CPtr`: `none` is `NULL`, `some ⟨b, o⟩` points `o` doubles
  into heap block `b`.
* The MATLAB memory manager, FFTW and the S2Kit routines are the environment.
  Every call into them is appended to `World.trace`; allocations draw their
  success from `World.supply`; the values produced by the S2Kit routines are
  a parameter (`S2Kit`).
* `mexErrMsgTxt` does not return: the gateway ends with `Status.error`.
* The helpers `CheckDimensions` and `GetScalarDouble` of the file are never
  called by `mexFunction` and are not embedded.
-/

namespace S2kitMex

/-! ## Memory -/

/-- An IEEE-754 double, kept as its 64-bit pattern; pattern `0` is `+0.0`. -/
structure Dbl where
  bits : Nat
deriving DecidableEq, Repr

/-- The double whose bytes are all zero, as `mxCalloc` produces. -/
def Dbl.zero : Dbl := ⟨0⟩

/-- A non-null pointer to a double: heap block and offset (in doubles). -/
structure Ptr where
  block : Nat
  off : Int
deriving DecidableEq, Repr

/-- A C `double *`; `none` is `NULL`. -/
abbrev CPtr := Option Ptr

/-- The null pointer. -/
def NULL : CPtr := none

/-- Pointer arithmetic `p + n` on a `double *`. -/
def ptrAdd (p : CPtr) (n : Int) : CPtr :=
  p.map fun q => ⟨q.block, q.off + n⟩

/-- Value of `sizeof(double)`. -/
def sizeofDouble : Nat := 8

/-- A memory cell holding a double; `none` is an indeterminate (never written) value. -/
abbrev Cell := Option Dbl

/-- Live heap blocks: block id and contents. -/
abbrev Heap := List (Nat × List Cell)

/-! ## The host interface types -/

/-- The `mxComplexity` flag of `matrix.h`. -/
inductive mxComplexity where
  | mxREAL
  | mxCOMPLEX
deriving DecidableEq, Repr

/-- An `mxArray` of doubles: dimension vector, real plane, imaginary plane. -/
structure MxArray where
  dims : List Nat
  pr : CPtr
  pi : CPtr
deriving DecidableEq, Repr

/-- The `fftw_r2r_kind` used by the gateway. -/
inductive fftw_r2r_kind where
  | FFTW_REDFT10
deriving DecidableEq, Repr

/-- The planner flag used by the gateway. -/
inductive fftw_flag where
  | FFTW_ESTIMATE
deriving DecidableEq, Repr

/-- The `fftw_iodim` of `fftw3.h`: length, input stride, output stride. -/
structure fftw_iodim where
  n : Int
  is : Int
  os : Int
deriving DecidableEq, Repr

/-- Arguments of `fftw_plan_r2r_1d`. -/
structure R2RPlan where
  n : Int
  inp : CPtr
  out : CPtr
  kind : fftw_r2r_kind
  flags : fftw_flag
deriving DecidableEq, Repr

/-- Arguments of `fftw_plan_guru_split_dft`. -/
structure GuruPlan where
  rank : Int
  dims : List fftw_iodim
  howmany_rank : Int
  howmany_dims : List fftw_iodim
  ri : CPtr
  ii : CPtr
  ro : CPtr
  io : CPtr
  flags : fftw_flag
deriving DecidableEq, Repr

/-- Arguments of the S2Kit kernel `FST_semi_fly`, in the order of its
parameter list, followed by the contents of the two sample planes at the
moment of the call. -/
structure KernelCall where
  rdata : CPtr
  idata : CPtr
  rcoeffs : CPtr
  icoeffs : CPtr
  bw : Int
  workspace : CPtr
  dataformat : Int
  cutoff : Int
  dctPlan : R2RPlan
  fftPlan : GuruPlan
  weights : CPtr
  rsamples : List Cell
  isamples : List Cell
deriving DecidableEq, Repr

/-- One call from the gateway into its environment. -/
inductive Event where
  | mxCalloc (n : Int) (size : Nat) (result : CPtr)
  | mxCreateDoubleMatrix (m : Int) (n : Int) (flag : mxComplexity) (result : MxArray)
  | mxMalloc (bytes : Int) (result : CPtr)
  | mxFree (p : CPtr)
  | fftw_plan_r2r_1d (p : R2RPlan)
  | fftw_plan_guru_split_dft (p : GuruPlan)
  | makeweights (bw : Int) (weights : CPtr)
  | FST_semi_fly (c : KernelCall)
  | mexErrMsgTxt (msg : String)
deriving DecidableEq, Repr

/-- The environment of one gateway call. `supply` decides, in order, whether
the upcoming buffer allocations succeed (an exhausted supply means failure). -/
structure World where
  heap : Heap
  fresh : Nat
  supply : List Bool
  trace : List Event
deriving DecidableEq, Repr

/-- The values the S2Kit routines compute (they are not part of this file). -/
structure S2Kit where
  makeweights : Int → List Dbl
  FST_semi_fly : KernelCall → List Dbl × List Dbl

/-- How a gateway call ends. -/
inductive Status where
  | returned
  | error (msg : String)
deriving DecidableEq, Repr

/-- Result of a gateway call: how it ended, the assignments made to `plhs`
(index and array), and the environment afterwards. -/
structure Outcome where
  status : Status
  plhs : List (Nat × MxArray)
  world : World
deriving DecidableEq, Repr

/-! ## Environment primitives -/

/-- Append an event to the trace. -/
def World.emit (w : World) (e : Event) : World :=
  { w with trace := w.trace ++ [e] }

/-- Try to obtain a new heap block with the given contents. -/
def World.alloc (w : World) (cells : List Cell) : CPtr × World :=
  match w.supply with
  | true :: rest =>
      (some ⟨w.fresh, 0⟩,
        { w with heap := (w.fresh, cells) :: w.heap, fresh := w.fresh + 1, supply := rest })
  | false :: rest => (NULL, { w with supply := rest })
  | [] => (NULL, w)

/-- Contents of block `b`, if it is live. -/
def heapLookup : Heap → Nat → Option (List Cell)
  | [], _ => none
  | (i, cells) :: t, b => if i = b then some cells else heapLookup t b

/-- Apply `g` to the contents of block `b`. -/
def heapUpdate : Heap → Nat → (List Cell → List Cell) → Heap
  | [], _, _ => []
  | (i, cells) :: t, b, g =>
      if i = b then (i, g cells) :: heapUpdate t b g else (i, cells) :: heapUpdate t b g

/-- Remove block `b`. -/
def heapRemove : Heap → Nat → Heap
  | [], _ => []
  | (i, cells) :: t, b => if i = b then heapRemove t b else (i, cells) :: heapRemove t b

/-- Block `b` is live. -/
def World.live (w : World) (b : Nat) : Bool :=
  (heapLookup w.heap b).isSome

/-- Number of doubles in block `b`, if it is live. -/
def World.blockLen (w : World) (b : Nat) : Option Nat :=
  (heapLookup w.heap b).map List.length

/-- Contents readable from `p` onwards. -/
def World.load (w : World) (p : CPtr) : List Cell :=
  match p with
  | none => []
  | some q => ((heapLookup w.heap q.block).getD []).drop q.off.toNat

/-- Overwrite `cells` from position `off` with `vals`, staying inside the block. -/
def storeCells : List Cell → Nat → List Dbl → List Cell
  | [], _, _ => []
  | c :: cs, 0, [] => c :: cs
  | _ :: cs, 0, v :: vs => some v :: storeCells cs 0 vs
  | c :: cs, n + 1, vs => c :: storeCells cs n vs

/-- Store `vals` at `p`. -/
def World.store (w : World) (p : CPtr) (vals : List Dbl) : World :=
  match p with
  | none => w
  | some q => { w with heap := heapUpdate w.heap q.block fun c => storeCells c q.off.toNat vals }

/-- Number of rows, `mxGetM`. -/
def mxGetM (x : MxArray) : Nat := x.dims.getD 0 0

/-- Number of columns, `mxGetN`: the product of the trailing dimensions. -/
def mxGetN (x : MxArray) : Nat := (x.dims.drop 1).prod

/-- Dimension count, `mxGetNumberOfDimensions`. -/
def mxGetNumberOfDimensions (x : MxArray) : Nat := x.dims.length

/-- Dimension vector, `mxGetDimensions`. -/
def mxGetDimensions (x : MxArray) : List Nat := x.dims

/-- Real plane, `mxGetPr`. -/
def mxGetPr (x : MxArray) : CPtr := x.pr

/-- Imaginary plane, `mxGetPi`. -/
def mxGetPi (x : MxArray) : CPtr := x.pi

/-- Zero-initialised allocation of `n` items of `size` bytes, `mxCalloc`. -/
def mxCalloc (n : Int) (size : Nat) (w : World) : CPtr × World :=
  let r := w.alloc (List.replicate (n.toNat * size / sizeofDouble) (some Dbl.zero))
  (r.1, r.2.emit (.mxCalloc n size r.1))

/-- Uninitialised allocation of `bytes` bytes, `mxMalloc`. -/
def mxMalloc (bytes : Int) (w : World) : CPtr × World :=
  let r := w.alloc (List.replicate (bytes.toNat / sizeofDouble) none)
  (r.1, r.2.emit (.mxMalloc bytes r.1))

/-- Creation of an `m`-by-`n` double matrix, `mxCreateDoubleMatrix`: a
zero-initialised real plane and, for `mxCOMPLEX`, a zero-initialised imaginary
plane. -/
def mxCreateDoubleMatrix (m n : Int) (flag : mxComplexity) (w : World) : MxArray × World :=
  let cells := List.replicate (m.toNat * n.toNat) (some Dbl.zero)
  let re := w.alloc cells
  let im := if flag = .mxCOMPLEX then re.2.alloc cells else (NULL, re.2)
  let a : MxArray := ⟨[m.toNat, n.toNat], re.1, im.1⟩
  (a, im.2.emit (.mxCreateDoubleMatrix m n flag a))

/-- Release of a buffer, `mxFree`; `mxFree(NULL)` releases nothing. -/
def mxFree (p : CPtr) (w : World) : World :=
  match p with
  | none => w.emit (.mxFree p)
  | some q => { w with heap := heapRemove w.heap q.block }.emit (.mxFree p)

/-- Report of an error to MATLAB, `mexErrMsgTxt`: the gateway ends here. -/
def mexErrMsgTxt (msg : String) (w : World) : Outcome :=
  ⟨.error msg, [], w.emit (.mexErrMsgTxt msg)⟩

/-- The S2Kit routine `makeweights(bw, weights)`: fills `weights`. -/
def makeweights (k : S2Kit) (bw : Int) (weights : CPtr) (w : World) : World :=
  (w.emit (.makeweights bw weights)).store weights (k.makeweights bw)

/-- The S2Kit kernel `FST_semi_fly`: fills the two coefficient planes. -/
def FST_semi_fly (k : S2Kit) (rdata idata rcoeffs icoeffs : CPtr) (bw : Int)
    (workspace : CPtr) (dataformat cutoff : Int) (dctPlan : R2RPlan) (fftPlan : GuruPlan)
    (weights : CPtr) (w : World) : World :=
  let c : KernelCall :=
    ⟨rdata, idata, rcoeffs, icoeffs, bw, workspace, dataformat, cutoff, dctPlan, fftPlan,
      weights, w.load rdata, w.load idata⟩
  let r := k.FST_semi_fly c
  ((w.emit (.FST_semi_fly c)).store rcoeffs r.1).store icoeffs r.2

/-! ## FFTW guru index maps -/

/-- Input index of element `k` of transform `j` for a rank-1 transform `d`
batched over a rank-1 loop `h` (FFTW guru interface). -/
def iodimIn (d h : fftw_iodim) (j k : Int) : Int := j * h.is + k * d.is

/-- Output index of element `k` of transform `j`. -/
def iodimOut (d h : fftw_iodim) (j k : Int) : Int := j * h.os + k * d.os

/-- Input index map of a guru plan with one transform and one loop dimension. -/
def GuruPlan.inputIndex (p : GuruPlan) (j k : Int) : Option Int :=
  match p.dims, p.howmany_dims with
  | [d], [h] => some (iodimIn d h j k)
  | _, _ => none

/-- Output index map of a guru plan with one transform and one loop dimension. -/
def GuruPlan.outputIndex (p : GuruPlan) (j k : Int) : Option Int :=
  match p.dims, p.howmany_dims with
  | [d], [h] => some (iodimOut d h j k)
  | _, _ => none

/-- Length of each transform of a guru plan. -/
def GuruPlan.length (p : GuruPlan) : Option Int := p.dims.head?.map (·.n)

/-- Number of transforms of a guru plan. -/
def GuruPlan.howmany (p : GuruPlan) : Option Int := p.howmany_dims.head?.map (·.n)

/-! ## The gateway -/

/-- The local variables of `mexFunction` once its buffers have been requested. -/
structure Locals where
  size : Int
  bandwidth : Int
  dataformat : Int
  ReData : CPtr
  ImData : CPtr
  mxaResult : MxArray
  ReResult : CPtr
  ImResult : CPtr
  workspace : CPtr
  weights : CPtr
deriving DecidableEq, Repr

/-- The shape test of `mexFunction` (line 124): true when the grid is rejected. -/
def badShape (mxaData : MxArray) : Bool :=
  mxGetNumberOfDimensions mxaData != 2 || mxGetM mxaData != mxGetN mxaData
    || (mxGetM mxaData % 2) != 0

/-- Lines 127-161 of `mexFunction`: derive the sizes and request the buffers. -/
def mexAllocate (mxaData : MxArray) (w : World) : Locals × World :=
  let dimensions := mxGetDimensions mxaData
  let size : Int := (dimensions.getD 0 0 : Nat)
  let bandwidth : Int := size.tdiv 2
  let ReData := mxGetPr mxaData
  let ImData := mxGetPi mxaData
  let im : Int × CPtr × World :=
    if ImData = NULL then
      let r := mxCalloc (size * size) sizeofDouble w
      (1, r.1, r.2)
    else (0, ImData, w)
  let dataformat := im.1
  let ImData := im.2.1
  let res := mxCreateDoubleMatrix (bandwidth * bandwidth) 1 .mxCOMPLEX im.2.2
  let mxaResult := res.1
  let ReResult := mxGetPr mxaResult
  let ImResult := mxGetPi mxaResult
  let ws := mxMalloc (sizeofDouble * ((10 * (bandwidth * bandwidth)) + (24 * bandwidth))) res.2
  let wt := mxMalloc (sizeofDouble * 4 * bandwidth) ws.2
  (⟨size, bandwidth, dataformat, ReData, ImData, mxaResult, ReResult, ImResult, ws.1, wt.1⟩,
    wt.2)

/-- The memory test of `mexFunction` (lines 168-170): true when a buffer is missing. -/
def Locals.anyNull (L : Locals) : Bool :=
  L.ReData == NULL || L.ImData == NULL || L.ReResult == NULL || L.ImResult == NULL
    || L.workspace == NULL || L.weights == NULL

/-- Lines 172-179 of `mexFunction`: release and report the allocation failure. -/
def mexFail (L : Locals) (w : World) : Outcome :=
  let w := if L.dataformat = 1 then mxFree L.ImData w else w
  let w := mxFree L.workspace w
  let w := mxFree L.weights w
  mexErrMsgTxt "Error in allocating memory" w

/-- The forward DCT plan of `mexFunction` (lines 190-191). -/
def dctPlanOf (L : Locals) : R2RPlan :=
  ⟨2 * L.bandwidth, L.weights, L.ReData, .FFTW_REDFT10, .FFTW_ESTIMATE⟩

/-- The forward FFT plan of `mexFunction` (lines 197-211). -/
def fftPlanOf (L : Locals) : GuruPlan :=
  let rank : Int := 1
  let dims : List fftw_iodim := [⟨2 * L.bandwidth, 1, 2 * L.bandwidth⟩]
  let howmany_rank : Int := 1
  let howmany_dims : List fftw_iodim := [⟨2 * L.bandwidth, 2 * L.bandwidth, 1⟩]
  ⟨rank, dims, howmany_rank, howmany_dims, L.ReData, L.ImData, L.workspace,
    ptrAdd L.workspace (4 * L.bandwidth * L.bandwidth), .FFTW_ESTIMATE⟩

/-- Lines 182-233 of `mexFunction`: plan, compute, hand over the result, release. -/
def mexCompute (k : S2Kit) (L : Locals) (w : World) : Outcome :=
  let dctPlan := dctPlanOf L
  let w := w.emit (.fftw_plan_r2r_1d dctPlan)
  let fftPlan := fftPlanOf L
  let w := w.emit (.fftw_plan_guru_split_dft fftPlan)
  let w := makeweights k L.bandwidth L.weights w
  let w := FST_semi_fly k L.ReData L.ImData L.ReResult L.ImResult L.bandwidth L.workspace
    L.dataformat L.bandwidth dctPlan fftPlan L.weights w
  let plhs := [(0, L.mxaResult)]
  let w := if L.dataformat = 1 then mxFree L.ImData w else w
  let w := mxFree L.workspace w
  let w := mxFree L.weights w
  ⟨.returned, plhs, w⟩

/-- The gateway `mexFunction(nlhs, plhs, nrhs, prhs)`. -/
def mexFunction (k : S2Kit) (nlhs : Int) (nrhs : Int) (prhs : Nat → MxArray) (w : World) :
    Outcome :=
  if nlhs > 1 then mexErrMsgTxt "Too many output arguments." w
  else if nrhs < 1 then mexErrMsgTxt "Not enough input arguments." w
  else if nrhs > 1 then mexErrMsgTxt "Too many input arguments." w
  else
    let mxaData := prhs 0
    if badShape mxaData then
      mexErrMsgTxt "Input must be a 2*bandwidth x 2*bandwidth square matrix!" w
    else
      let a := mexAllocate mxaData w
      if a.1.anyNull then mexFail a.1 a.2
      else mexCompute k a.1 a.2

/-! ## Observations on a call -/

/-- The events appended to the trace by one gateway call. -/
def callEvents (k : S2Kit) (nlhs nrhs : Int) (prhs : Nat → MxArray) (w : World) : List Event :=
  (mexFunction k nlhs nrhs prhs w).world.trace.drop w.trace.length

/-- The event requests a buffer. -/
def Event.isAlloc : Event → Bool
  | .mxCalloc _ _ _ => true
  | .mxCreateDoubleMatrix _ _ _ _ => true
  | .mxMalloc _ _ => true
  | _ => false

/-- The event creates an FFTW plan or enters an S2Kit routine. -/
def Event.isCompute : Event → Bool
  | .fftw_plan_r2r_1d _ => true
  | .fftw_plan_guru_split_dft _ => true
  | .makeweights _ _ => true
  | .FST_semi_fly _ => true
  | _ => false

/-- The argument record of the kernel call made by `mexCompute` from world `w`. -/
def kernelCallOf (k : S2Kit) (L : Locals) (w : World) : KernelCall :=
  ⟨L.ReData, L.ImData, L.ReResult, L.ImResult, L.bandwidth, L.workspace, L.dataformat,
    L.bandwidth, dctPlanOf L, fftPlanOf L, L.weights,
    (w.store L.weights (k.makeweights L.bandwidth)).load L.ReData,
    (w.store L.weights (k.makeweights L.bandwidth)).load L.ImData⟩

/-- The allocation requests of lines 133-161, as events. -/
def allocEvents (x : MxArray) (w : World) : List Event :=
  (if x.pi = NULL then
      [Event.mxCalloc ((mexAllocate x w).1.size * (mexAllocate x w).1.size) sizeofDouble
        (mexAllocate x w).1.ImData]
    else [])
  ++ [.mxCreateDoubleMatrix
        ((mexAllocate x w).1.bandwidth * (mexAllocate x w).1.bandwidth) 1 .mxCOMPLEX
        (mexAllocate x w).1.mxaResult,
      .mxMalloc (sizeofDouble * ((10 * ((mexAllocate x w).1.bandwidth
          * (mexAllocate x w).1.bandwidth)) + (24 * (mexAllocate x w).1.bandwidth)))
        (mexAllocate x w).1.workspace,
      .mxMalloc (sizeofDouble * 4 * (mexAllocate x w).1.bandwidth)
        (mexAllocate x w).1.weights]

/-- The releases of lines 173-177 and 229-233, as events. -/
def freeEvents (L : Locals) : List Event :=
  (if L.dataformat = 1 then [Event.mxFree L.ImData] else [])
    ++ [.mxFree L.workspace, .mxFree L.weights]

/-- World `w'` keeps every block that existed in `w`, with its contents. -/
def Extends (w w' : World) : Prop :=
  w.fresh ≤ w'.fresh ∧ ∀ b, b < w.fresh → heapLookup w'.heap b = heapLookup w.heap b

/-- The kernel calls among a list of events. -/
def kernelCalls : List Event → List KernelCall
  | [] => []
  | .FST_semi_fly c :: es => c :: kernelCalls es
  | _ :: es => kernelCalls es

/-! ## Example inputs -/

/-- Stand-in values for the S2Kit routines, used in the examples. -/
def exKit : S2Kit :=
  ⟨fun bw => List.replicate (4 * bw).toNat ⟨1⟩,
    fun c => (List.replicate (c.bw * c.bw).toNat ⟨2⟩, List.replicate (c.bw * c.bw).toNat ⟨3⟩)⟩

/-- A world holding two caller blocks of four doubles, with the given supply. -/
def exWorld (supply : List Bool) : World :=
  ⟨[(1, List.replicate 4 (some ⟨5⟩)), (0, List.replicate 4 (some ⟨4⟩))], 2, supply, []⟩

/-- A real 2-by-2 grid (bandwidth 1). -/
def exReal : MxArray := ⟨[2, 2], some ⟨0, 0⟩, none⟩

/-- A complex 2-by-2 grid (bandwidth 1). -/
def exComplex : MxArray := ⟨[2, 2], some ⟨0, 0⟩, some ⟨1, 0⟩⟩

/-- A 0-by-0 grid whose data pointer is not NULL (bandwidth 0). -/
def exEmpty : MxArray := ⟨[0, 0], some ⟨0, 0⟩, none⟩

/-- The argument vector `prhs` holding the single input `x`. -/
def exArgs (x : MxArray) : Nat → MxArray := fun _ => x

/-- A supply under which five allocations succeed. -/
def exSupply : List Bool := [true, true, true, true, true]

/-! ## Auxiliary lemmas -/

theorem alloc_trace (w : World) (cells : List Cell) : (w.alloc cells).2.trace = w.trace := by
  unfold World.alloc
  split <;> rfl

theorem mxCalloc_trace (n : Int) (size : Nat) (w : World) :
    (mxCalloc n size w).2.trace = w.trace ++ [.mxCalloc n size (mxCalloc n size w).1] := by
  simp [mxCalloc, World.emit, alloc_trace]

theorem mxMalloc_trace (bytes : Int) (w : World) :
    (mxMalloc bytes w).2.trace = w.trace ++ [.mxMalloc bytes (mxMalloc bytes w).1] := by
  simp [mxMalloc, World.emit, alloc_trace]

theorem mxCreateDoubleMatrix_trace (m n : Int) (flag : mxComplexity) (w : World) :
    (mxCreateDoubleMatrix m n flag w).2.trace
      = w.trace ++ [.mxCreateDoubleMatrix m n flag (mxCreateDoubleMatrix m n flag w).1] := by
  unfold mxCreateDoubleMatrix
  by_cases hf : flag = .mxCOMPLEX <;> simp [World.emit, alloc_trace, hf]

theorem mxFree_trace (p : CPtr) (w : World) : (mxFree p w).trace = w.trace ++ [.mxFree p] := by
  cases p <;> rfl

theorem mexAllocate_bandwidth (x : MxArray) (w : World) :
    (mexAllocate x w).1.bandwidth = ((mxGetM x / 2 : Nat) : Int) := by
  show ((x.dims.getD 0 0 : Nat) : Int).tdiv 2 = _
  simp [mxGetM, Int.tdiv]

theorem mexAllocate_trace (x : MxArray) (w : World) :
    (mexAllocate x w).2.trace
      = w.trace
        ++ (if x.pi = NULL then
              [Event.mxCalloc ((mexAllocate x w).1.size * (mexAllocate x w).1.size) sizeofDouble
                (mexAllocate x w).1.ImData]
            else [])
        ++ [.mxCreateDoubleMatrix
              ((mexAllocate x w).1.bandwidth * (mexAllocate x w).1.bandwidth) 1 .mxCOMPLEX
              (mexAllocate x w).1.mxaResult,
            .mxMalloc (sizeofDouble * ((10 * ((mexAllocate x w).1.bandwidth
                * (mexAllocate x w).1.bandwidth)) + (24 * (mexAllocate x w).1.bandwidth)))
              (mexAllocate x w).1.workspace,
            .mxMalloc (sizeofDouble * 4 * (mexAllocate x w).1.bandwidth)
              (mexAllocate x w).1.weights] := by
  by_cases hp : x.pi = NULL
  · simp [mexAllocate, mxGetPi, hp, mxMalloc_trace, mxCreateDoubleMatrix_trace, mxCalloc_trace]
  · simp [mexAllocate, mxGetPi, hp, mxMalloc_trace, mxCreateDoubleMatrix_trace]

theorem store_trace (w : World) (p : CPtr) (v : List Dbl) : (w.store p v).trace = w.trace := by
  cases p <;> rfl

theorem load_store_heap (w w' : World) (p q : CPtr) (v : List Dbl) (h : w.heap = w'.heap) :
    (w.store p v).load q = (w'.store p v).load q := by
  cases p <;> cases q <;> simp [World.store, World.load, h]

theorem mexFail_trace (L : Locals) (w : World) :
    (mexFail L w).world.trace
      = w.trace ++ (if L.dataformat = 1 then [Event.mxFree L.ImData] else [])
        ++ [.mxFree L.workspace, .mxFree L.weights,
            .mexErrMsgTxt "Error in allocating memory"] := by
  by_cases hd : L.dataformat = 1 <;>
    simp [mexFail, mexErrMsgTxt, World.emit, mxFree_trace, hd]

theorem mexCompute_trace (k : S2Kit) (L : Locals) (w : World) :
    (mexCompute k L w).world.trace
      = w.trace ++ [.fftw_plan_r2r_1d (dctPlanOf L), .fftw_plan_guru_split_dft (fftPlanOf L),
            .makeweights L.bandwidth L.weights, .FST_semi_fly (kernelCallOf k L w)]
        ++ (if L.dataformat = 1 then [Event.mxFree L.ImData] else [])
        ++ [.mxFree L.workspace, .mxFree L.weights] := by
  by_cases hd : L.dataformat = 1 <;>
    simp [mexCompute, makeweights, FST_semi_fly, World.emit, mxFree_trace, store_trace, hd,
      kernelCallOf] <;>
    exact ⟨load_store_heap _ _ _ _ _ rfl, load_store_heap _ _ _ _ _ rfl⟩

theorem badShape_square (x : MxArray) (n : Nat) (hd : x.dims = [n, n]) (he : n % 2 = 0) :
    badShape x = false := by
  simp [badShape, mxGetNumberOfDimensions, mxGetM, mxGetN, hd, he]

theorem mexFunction_accepted (k : S2Kit) (nlhs : Int) (prhs : Nat → MxArray) (w : World)
    (hl : nlhs ≤ 1) (hb : badShape (prhs 0) = false) :
    mexFunction k nlhs 1 prhs w
      = if (mexAllocate (prhs 0) w).1.anyNull then
          mexFail (mexAllocate (prhs 0) w).1 (mexAllocate (prhs 0) w).2
        else mexCompute k (mexAllocate (prhs 0) w).1 (mexAllocate (prhs 0) w).2 := by
  unfold mexFunction
  rw [if_neg (by omega), if_neg (by omega), if_neg (by omega)]
  simp [hb]

theorem callEvents_fail (k : S2Kit) (nlhs : Int) (prhs : Nat → MxArray) (w : World)
    (hl : nlhs ≤ 1) (hb : badShape (prhs 0) = false)
    (hnull : (mexAllocate (prhs 0) w).1.anyNull = true) :
    callEvents k nlhs 1 prhs w
      = allocEvents (prhs 0) w ++ freeEvents (mexAllocate (prhs 0) w).1
        ++ [.mexErrMsgTxt "Error in allocating memory"] := by
  unfold callEvents
  rw [mexFunction_accepted k nlhs prhs w hl hb, if_pos hnull, mexFail_trace, mexAllocate_trace]
  simp [allocEvents, freeEvents, List.append_assoc]

theorem callEvents_ok (k : S2Kit) (nlhs : Int) (prhs : Nat → MxArray) (w : World)
    (hl : nlhs ≤ 1) (hb : badShape (prhs 0) = false)
    (hok : (mexAllocate (prhs 0) w).1.anyNull = false) :
    callEvents k nlhs 1 prhs w
      = allocEvents (prhs 0) w
        ++ [.fftw_plan_r2r_1d (dctPlanOf (mexAllocate (prhs 0) w).1),
            .fftw_plan_guru_split_dft (fftPlanOf (mexAllocate (prhs 0) w).1),
            .makeweights (mexAllocate (prhs 0) w).1.bandwidth (mexAllocate (prhs 0) w).1.weights,
            .FST_semi_fly
              (kernelCallOf k (mexAllocate (prhs 0) w).1 (mexAllocate (prhs 0) w).2)]
        ++ freeEvents (mexAllocate (prhs 0) w).1 := by
  unfold callEvents
  rw [mexFunction_accepted k nlhs prhs w hl hb, hok]
  simp only [Bool.false_eq_true, if_false]
  rw [mexCompute_trace, mexAllocate_trace]
  simp [allocEvents, freeEvents, List.append_assoc]

theorem mexAllocate_bandwidth_of_dims (x : MxArray) (w : World) (n : Nat)
    (hd : x.dims = [n, n]) : (mexAllocate x w).1.bandwidth = ((n / 2 : Nat) : Int) := by
  rw [mexAllocate_bandwidth]; simp [mxGetM, hd]

theorem supply_of_ok_real (x : MxArray) (w : World) (hp : x.pi = NULL)
    (hok : (mexAllocate x w).1.anyNull = false) :
    ∃ rest, w.supply = true :: true :: true :: true :: true :: rest := by
  obtain ⟨heap, fresh, supply, trace⟩ := w
  rcases supply with _ | ⟨_ | _, _ | ⟨_ | _, _ | ⟨_ | _, _ | ⟨_ | _, _ | ⟨_ | _, rest⟩⟩⟩⟩⟩ <;>
    simp [mexAllocate, mxGetPi, hp, mxCalloc, mxCreateDoubleMatrix, mxMalloc, World.alloc,
      World.emit, Locals.anyNull, mxGetPr, NULL] at hok ⊢

theorem supply_of_ok_complex (x : MxArray) (w : World) (hp : x.pi ≠ NULL)
    (hok : (mexAllocate x w).1.anyNull = false) :
    ∃ rest, w.supply = true :: true :: true :: true :: rest := by
  obtain ⟨heap, fresh, supply, trace⟩ := w
  have hp : ¬ x.pi = none := hp
  rcases supply with _ | ⟨_ | _, _ | ⟨_ | _, _ | ⟨_ | _, _ | ⟨_ | _, rest⟩⟩⟩⟩ <;>
    simp [mexAllocate, mxGetPi, hp, mxCreateDoubleMatrix, mxMalloc, World.alloc,
      World.emit, Locals.anyNull, mxGetPr, NULL] at hok ⊢

theorem storeCells_length (cells : List Cell) (off : Nat) (vals : List Dbl) :
    (storeCells cells off vals).length = cells.length := by
  induction cells generalizing off vals with
  | nil => simp [storeCells]
  | cons c cs ih =>
    cases off with
    | zero => cases vals <;> simp [storeCells, ih]
    | succ n => simp [storeCells, ih]

theorem lookup_update (h : Heap) (b c : Nat) (g : List Cell → List Cell) :
    heapLookup (heapUpdate h c g) b
      = if b = c then (heapLookup h b).map g else heapLookup h b := by
  induction h with
  | nil => simp [heapLookup, heapUpdate]
  | cons e t ih =>
    obtain ⟨i, cells⟩ := e
    simp only [heapUpdate]
    split_ifs with hic hbc hbc
    · subst hic; subst hbc; simp [heapLookup]
    · subst hic
      have : ¬ i = b := fun h => hbc h.symm
      simp [heapLookup, this, ih, hbc]
    · subst hbc; simp [heapLookup, hic, ih]
    · by_cases hib : i = b <;> simp [heapLookup, hib, ih, hbc]

theorem lookup_remove (h : Heap) (b c : Nat) :
    heapLookup (heapRemove h c) b = if b = c then none else heapLookup h b := by
  induction h with
  | nil => simp [heapLookup, heapRemove]
  | cons e t ih =>
    obtain ⟨i, cells⟩ := e
    simp only [heapRemove]
    split_ifs with hic hbc hbc
    · subst hbc; simpa using ih
    · subst hic
      have : ¬ i = b := fun h => hbc h.symm
      simp [heapLookup, this, ih, hbc]
    · subst hbc; simp [heapLookup, hic, ih]
    · by_cases hib : i = b <;> simp [heapLookup, hib, ih, hbc]

theorem load_store_ne (w : World) (p q : CPtr) (v : List Dbl)
    (h : ∀ a b, p = some a → q = some b → b.block ≠ a.block) :
    (w.store p v).load q = w.load q := by
  cases p with
  | none => rfl
  | some a =>
    cases q with
    | none => rfl
    | some b =>
      have hne := h a b rfl rfl
      simp [World.store, World.load, lookup_update, hne]

theorem blockLen_emit (w : World) (e : Event) (b : Nat) :
    (w.emit e).blockLen b = w.blockLen b := rfl

theorem blockLen_store (w : World) (p : CPtr) (v : List Dbl) (b : Nat) :
    (w.store p v).blockLen b = w.blockLen b := by
  cases p with
  | none => rfl
  | some a =>
    simp only [World.store, World.blockLen, lookup_update]
    split
    · simp [Option.map_map, Function.comp_def, storeCells_length]
    · rfl

theorem blockLen_mxFree (w : World) (p : CPtr) (b : Nat) :
    (mxFree p w).blockLen b = if p.map Ptr.block = some b then none else w.blockLen b := by
  cases p with
  | none => simp [mxFree, World.blockLen, World.emit]
  | some a =>
    simp only [mxFree, World.blockLen, World.emit, lookup_remove, Option.map_some',
      Option.some.injEq]
    by_cases hab : b = a.block
    · subst hab; simp
    · have : ¬ a.block = b := fun h => hab h.symm
      simp [hab, this]

theorem load_length (w : World) (b : Nat) :
    (w.load (some ⟨b, 0⟩)).length = (w.blockLen b).getD 0 := by
  simp only [World.load, World.blockLen, Int.toNat_zero, List.drop_zero]
  cases heapLookup w.heap b <;> simp

theorem mexCompute_blockLen (k : S2Kit) (L : Locals) (w : World) (b : Nat)
    (h1 : L.dataformat = 1 → L.ImData.map Ptr.block ≠ some b)
    (h2 : L.workspace.map Ptr.block ≠ some b) (h3 : L.weights.map Ptr.block ≠ some b) :
    (mexCompute k L w).world.blockLen b = w.blockLen b := by
  by_cases hd : L.dataformat = 1
  · simp [mexCompute, makeweights, FST_semi_fly, blockLen_mxFree, blockLen_store, blockLen_emit,
      hd, h1 hd, h2, h3]
  · simp [mexCompute, makeweights, FST_semi_fly, blockLen_mxFree, blockLen_store, blockLen_emit,
      hd, h2, h3]

theorem tdiv_two_cast (m : Nat) : (m : Int).tdiv 2 = ((m / 2 : Nat) : Int) := by
  simp [Int.tdiv]

theorem toNat_sq (b : Nat) : ((b : Int) * (b : Int)).toNat = b * b := by
  rw [← Nat.cast_mul, Int.toNat_natCast]

theorem mul_sizeof_div (a : Nat) : a * sizeofDouble / sizeofDouble = a := by
  simp [sizeofDouble]

theorem toNat_workspace (b : Nat) :
    ((sizeofDouble : Int) * ((10 * ((b : Int) * (b : Int))) + (24 * (b : Int)))).toNat
        / sizeofDouble
      = 10 * (b * b) + 24 * b := by
  have : (sizeofDouble : Int) * ((10 * ((b : Int) * (b : Int))) + (24 * (b : Int)))
      = ((8 * (10 * (b * b) + 24 * b) : Nat) : Int) := by
    simp only [sizeofDouble]; push_cast; ring
  rw [this, Int.toNat_natCast]; simp [sizeofDouble]

theorem toNat_weights (b : Nat) :
    ((sizeofDouble : Int) * 4 * (b : Int)).toNat / sizeofDouble = 4 * b := by
  have : (sizeofDouble : Int) * 4 * (b : Int) = ((8 * (4 * b) : Nat) : Int) := by
    simp only [sizeofDouble]; push_cast; ring
  rw [this, Int.toNat_natCast]; simp [sizeofDouble]

theorem mexAllocate_real_ok (x : MxArray) (w : World) (rest : List Bool) (hp : x.pi = NULL)
    (hs : w.supply = true :: true :: true :: true :: true :: rest) :
    (mexAllocate x w).1.dataformat = 1
      ∧ (mexAllocate x w).1.ReData = x.pr
      ∧ (mexAllocate x w).1.ImData = some ⟨w.fresh, 0⟩
      ∧ (mexAllocate x w).1.mxaResult
          = ⟨[(mxGetM x / 2) * (mxGetM x / 2), 1], some ⟨w.fresh + 1, 0⟩, some ⟨w.fresh + 2, 0⟩⟩
      ∧ (mexAllocate x w).1.ReResult = some ⟨w.fresh + 1, 0⟩
      ∧ (mexAllocate x w).1.ImResult = some ⟨w.fresh + 2, 0⟩
      ∧ (mexAllocate x w).1.workspace = some ⟨w.fresh + 3, 0⟩
      ∧ (mexAllocate x w).1.weights = some ⟨w.fresh + 4, 0⟩
      ∧ (mexAllocate x w).2.heap
          = (w.fresh + 4, List.replicate (4 * (mxGetM x / 2)) none)
            :: (w.fresh + 3,
                List.replicate (10 * ((mxGetM x / 2) * (mxGetM x / 2)) + 24 * (mxGetM x / 2)) none)
            :: (w.fresh + 2, List.replicate ((mxGetM x / 2) * (mxGetM x / 2)) (some Dbl.zero))
            :: (w.fresh + 1, List.replicate ((mxGetM x / 2) * (mxGetM x / 2)) (some Dbl.zero))
            :: (w.fresh, List.replicate (mxGetM x * mxGetM x) (some Dbl.zero)) :: w.heap := by
  obtain ⟨heap, fresh, supply, trace⟩ := w
  simp only at hs
  subst hs
  have hp' : x.pi = none := hp
  simp only [mexAllocate, mxGetPi, hp', mxCalloc, mxCreateDoubleMatrix, mxMalloc,
    World.alloc, World.emit, mxGetPr, NULL, mxGetDimensions, mxGetM,
    tdiv_two_cast, toNat_sq, mul_sizeof_div, toNat_workspace, toNat_weights]
  simp

theorem mexAllocate_complex_ok (x : MxArray) (w : World) (rest : List Bool) (hp : x.pi ≠ NULL)
    (hs : w.supply = true :: true :: true :: true :: rest) :
    (mexAllocate x w).1.dataformat = 0
      ∧ (mexAllocate x w).1.ReData = x.pr
      ∧ (mexAllocate x w).1.ImData = x.pi
      ∧ (mexAllocate x w).1.mxaResult
          = ⟨[(mxGetM x / 2) * (mxGetM x / 2), 1], some ⟨w.fresh, 0⟩, some ⟨w.fresh + 1, 0⟩⟩
      ∧ (mexAllocate x w).1.ReResult = some ⟨w.fresh, 0⟩
      ∧ (mexAllocate x w).1.ImResult = some ⟨w.fresh + 1, 0⟩
      ∧ (mexAllocate x w).1.workspace = some ⟨w.fresh + 2, 0⟩
      ∧ (mexAllocate x w).1.weights = some ⟨w.fresh + 3, 0⟩
      ∧ (mexAllocate x w).2.heap
          = (w.fresh + 3, List.replicate (4 * (mxGetM x / 2)) none)
            :: (w.fresh + 2,
                List.replicate (10 * ((mxGetM x / 2) * (mxGetM x / 2)) + 24 * (mxGetM x / 2)) none)
            :: (w.fresh + 1, List.replicate ((mxGetM x / 2) * (mxGetM x / 2)) (some Dbl.zero))
            :: (w.fresh, List.replicate ((mxGetM x / 2) * (mxGetM x / 2)) (some Dbl.zero))
            :: w.heap := by
  obtain ⟨heap, fresh, supply, trace⟩ := w
  simp only at hs
  subst hs
  have hp' : ¬ x.pi = none := hp
  simp only [mexAllocate, mxGetPi, hp', mxCalloc, mxCreateDoubleMatrix, mxMalloc,
    World.alloc, World.emit, mxGetPr, NULL, mxGetDimensions, mxGetM,
    tdiv_two_cast, toNat_sq, mul_sizeof_div, toNat_workspace, toNat_weights]
  simp

theorem load_of_heap (w w' : World) (p : CPtr) (h : ∀ q, p = some q →
    heapLookup w'.heap q.block = heapLookup w.heap q.block) : w'.load p = w.load p := by
  cases p with
  | none => rfl
  | some q => simp [World.load, h q rfl]

theorem live_eq_blockLen (w : World) (b : Nat) : w.live b = (w.blockLen b).isSome := by
  simp [World.live, World.blockLen]

theorem mexFail_blockLen (L : Locals) (w : World) (b : Nat) :
    (mexFail L w).world.blockLen b
      = if (L.dataformat = 1 ∧ L.ImData.map Ptr.block = some b)
            ∨ L.workspace.map Ptr.block = some b ∨ L.weights.map Ptr.block = some b
        then none else w.blockLen b := by
  by_cases hd : L.dataformat = 1 <;>
  by_cases h1 : L.ImData.map Ptr.block = some b <;>
  by_cases h2 : L.workspace.map Ptr.block = some b <;>
  by_cases h3 : L.weights.map Ptr.block = some b <;>
    simp [mexFail, mexErrMsgTxt, blockLen_emit, blockLen_mxFree, hd, h1, h2, h3]

theorem Extends.refl (w : World) : Extends w w := ⟨le_refl _, fun _ _ => rfl⟩

theorem Extends.trans {a b c : World} (h1 : Extends a b) (h2 : Extends b c) : Extends a c :=
  ⟨le_trans h1.1 h2.1, fun x hx => by rw [h2.2 x (lt_of_lt_of_le hx h1.1), h1.2 x hx]⟩

theorem alloc_extends (w : World) (cells : List Cell) :
    Extends w (w.alloc cells).2 ∧ ∀ p, (w.alloc cells).1 = some p → w.fresh ≤ p.block := by
  unfold World.alloc
  split
  · refine ⟨⟨by simp, ?_⟩, ?_⟩
    · intro b hb
      have : ¬ w.fresh = b := by omega
      simp [heapLookup, this]
    · intro p hp; simp at hp; subst hp; simp
  · exact ⟨⟨le_refl _, fun _ _ => rfl⟩, by simp [NULL]⟩
  · exact ⟨⟨le_refl _, fun _ _ => rfl⟩, by simp [NULL]⟩

theorem mxCalloc_extends (n : Int) (size : Nat) (w : World) :
    Extends w (mxCalloc n size w).2 ∧ ∀ p, (mxCalloc n size w).1 = some p → w.fresh ≤ p.block := by
  have h := alloc_extends w (List.replicate (n.toNat * size / sizeofDouble) (some Dbl.zero))
  exact ⟨⟨h.1.1, h.1.2⟩, h.2⟩

theorem mxMalloc_extends (bytes : Int) (w : World) :
    Extends w (mxMalloc bytes w).2 ∧ ∀ p, (mxMalloc bytes w).1 = some p → w.fresh ≤ p.block := by
  have h := alloc_extends w (List.replicate (bytes.toNat / sizeofDouble) none)
  exact ⟨⟨h.1.1, h.1.2⟩, h.2⟩

theorem mxCreateDoubleMatrix_extends (m n : Int) (flag : mxComplexity) (w : World) :
    Extends w (mxCreateDoubleMatrix m n flag w).2 := by
  have h1 := (alloc_extends w (List.replicate (m.toNat * n.toNat) (some Dbl.zero))).1
  by_cases hf : flag = .mxCOMPLEX
  · have h2 := (alloc_extends (w.alloc (List.replicate (m.toNat * n.toNat) (some Dbl.zero))).2
      (List.replicate (m.toNat * n.toNat) (some Dbl.zero))).1
    have h := h1.trans h2
    simp only [mxCreateDoubleMatrix, hf, if_true]
    exact ⟨h.1, h.2⟩
  · simp only [mxCreateDoubleMatrix, hf, if_false]
    exact ⟨h1.1, h1.2⟩

/-- Every block obtained by the allocation phase is new, and the blocks that
existed before are untouched. -/
theorem mexAllocate_frame (x : MxArray) (w : World) :
    (∀ p, (mexAllocate x w).1.workspace = some p → w.fresh ≤ p.block)
      ∧ (∀ p, (mexAllocate x w).1.weights = some p → w.fresh ≤ p.block)
      ∧ (∀ p, x.pi = NULL → (mexAllocate x w).1.ImData = some p → w.fresh ≤ p.block)
      ∧ ∀ b, b < w.fresh → (mexAllocate x w).2.blockLen b = w.blockLen b := by
  obtain ⟨im, him⟩ : ∃ im : Int × CPtr × World, im =
      if mxGetPi x = NULL then
        (1, (mxCalloc ((mexAllocate x w).1.size * (mexAllocate x w).1.size) sizeofDouble w).1,
          (mxCalloc ((mexAllocate x w).1.size * (mexAllocate x w).1.size) sizeofDouble w).2)
      else (0, mxGetPi x, w) := ⟨_, rfl⟩
  have h1 : Extends w im.2.2 ∧ (x.pi = NULL → ∀ p, im.2.1 = some p → w.fresh ≤ p.block) := by
    by_cases hp : mxGetPi x = NULL
    · rw [him, if_pos hp]
      exact ⟨(mxCalloc_extends _ _ w).1, fun _ => (mxCalloc_extends _ _ w).2⟩
    · rw [him, if_neg hp]
      exact ⟨Extends.refl w, fun h => absurd h hp⟩
  obtain ⟨r2, hr2⟩ : ∃ r2, r2 = mxCreateDoubleMatrix
      ((mexAllocate x w).1.bandwidth * (mexAllocate x w).1.bandwidth) 1 .mxCOMPLEX im.2.2 :=
    ⟨_, rfl⟩
  have h2 : Extends im.2.2 r2.2 := hr2 ▸ mxCreateDoubleMatrix_extends _ _ _ _
  obtain ⟨r3, hr3⟩ : ∃ r3, r3 = mxMalloc (sizeofDouble * ((10 * ((mexAllocate x w).1.bandwidth
      * (mexAllocate x w).1.bandwidth)) + (24 * (mexAllocate x w).1.bandwidth))) r2.2 :=
    ⟨_, rfl⟩
  have h3 : Extends r2.2 r3.2 ∧ ∀ p, r3.1 = some p → r2.2.fresh ≤ p.block :=
    hr3 ▸ mxMalloc_extends _ _
  obtain ⟨r4, hr4⟩ : ∃ r4, r4 = mxMalloc (sizeofDouble * 4 * (mexAllocate x w).1.bandwidth) r3.2 :=
    ⟨_, rfl⟩
  have h4 : Extends r3.2 r4.2 ∧ ∀ p, r4.1 = some p → r3.2.fresh ≤ p.block :=
    hr4 ▸ mxMalloc_extends _ _
  have e2 : (mexAllocate x w).2 = r4.2 := by subst hr4 hr3 hr2 him; rfl
  have ews : (mexAllocate x w).1.workspace = r3.1 := by subst hr3 hr2 him; rfl
  have ewt : (mexAllocate x w).1.weights = r4.1 := by subst hr4 hr3 hr2 him; rfl
  have eim : (mexAllocate x w).1.ImData = im.2.1 := by subst him; rfl
  have h12 := h1.1.trans h2
  have h13 := h12.trans h3.1
  have h14 := h13.trans h4.1
  refine ⟨?_, ?_, ?_, ?_⟩
  · intro p hp; rw [ews] at hp; exact le_trans h12.1 (h3.2 p hp)
  · intro p hp; rw [ewt] at hp; exact le_trans h13.1 (h4.2 p hp)
  · intro p hpi hp; rw [eim] at hp; exact h1.2 hpi p hp
  · intro b hb; rw [e2]; simp only [World.blockLen, h14.2 b hb]

theorem mexAllocate_dataformat (x : MxArray) (w : World) :
    (mexAllocate x w).1.dataformat = if x.pi = NULL then 1 else 0 := by
  by_cases hp : x.pi = NULL
  · have hp' : mxGetPi x = NULL := hp
    simp [mexAllocate, hp', hp]
  · have hp' : ¬ mxGetPi x = NULL := hp
    simp [mexAllocate, hp', hp]

theorem allocEvents_isAlloc (x : MxArray) (w : World) :
    ∀ e ∈ allocEvents x w, e.isAlloc = true := by
  intro e he
  by_cases hp : x.pi = NULL
  · simp only [allocEvents, hp, if_true, List.cons_append, List.nil_append, List.mem_cons,
      List.mem_singleton, List.not_mem_nil, or_false] at he
    rcases he with he | he | he | he <;> subst he <;> rfl
  · simp only [allocEvents, hp, if_false, List.nil_append, List.mem_cons,
      List.mem_singleton, List.not_mem_nil, or_false] at he
    rcases he with he | he | he <;> subst he <;> rfl

theorem freeEvents_isFree (L : Locals) : ∀ e ∈ freeEvents L, ∃ p, e = Event.mxFree p := by
  intro e he
  by_cases hd : L.dataformat = 1
  · simp only [freeEvents, hd, if_true, List.cons_append, List.nil_append, List.mem_cons,
      List.mem_singleton, List.not_mem_nil, or_false] at he
    rcases he with he | he | he <;> exact ⟨_, he⟩
  · simp only [freeEvents, hd, if_false, List.nil_append, List.mem_cons,
      List.mem_singleton, List.not_mem_nil, or_false] at he
    rcases he with he | he <;> exact ⟨_, he⟩

/-- Outcome of an accepted call in which one of the six buffers is missing. -/
theorem fail_outcome (k : S2Kit) (nlhs : Int) (prhs : Nat → MxArray) (w : World)
    (hl : nlhs ≤ 1) (hb : badShape (prhs 0) = false)
    (hn : (mexAllocate (prhs 0) w).1.anyNull = true) :
    (mexFunction k nlhs 1 prhs w).status = .error "Error in allocating memory"
      ∧ (mexFunction k nlhs 1 prhs w).plhs = []
      ∧ (∀ e ∈ callEvents k nlhs 1 prhs w, e.isCompute = false)
      ∧ (callEvents k nlhs 1 prhs w).getLast?
          = some (.mexErrMsgTxt "Error in allocating memory") := by
  refine ⟨?_, ?_, ?_, ?_⟩
  · rw [mexFunction_accepted k nlhs prhs w hl hb, if_pos hn]; rfl
  · rw [mexFunction_accepted k nlhs prhs w hl hb, if_pos hn]; rfl
  · rw [callEvents_fail k nlhs prhs w hl hb hn]
    intro e he
    simp only [List.mem_append, List.mem_singleton] at he
    rcases he with (he | he) | he
    · have := allocEvents_isAlloc _ _ e he
      cases e <;> simp_all [Event.isAlloc, Event.isCompute]
    · obtain ⟨p, hp⟩ := freeEvents_isFree _ e he
      subst hp; rfl
    · subst he; rfl
  · rw [callEvents_fail k nlhs prhs w hl hb hn]
    simp

/-- Outcome of an accepted call in which all six buffers are present. -/
theorem ok_outcome (k : S2Kit) (nlhs : Int) (prhs : Nat → MxArray)
    (w : World) (n : Nat) (hl : nlhs ≤ 1) (hd : (prhs 0).dims = [n, n]) (he : n % 2 = 0)
    (hok : (mexAllocate (prhs 0) w).1.anyNull = false) :
    ∃ re im : Ptr,
      (mexFunction k nlhs 1 prhs w).status = .returned
      ∧ (mexFunction k nlhs 1 prhs w).plhs = [(0, ⟨[(n / 2) * (n / 2), 1], some re, some im⟩)]
      ∧ ((mexFunction k nlhs 1 prhs w).world.load (some re)).length = (n / 2) * (n / 2)
      ∧ ((mexFunction k nlhs 1 prhs w).world.load (some im)).length = (n / 2) * (n / 2)
      ∧ re.block ≠ im.block := by
  have hb := badShape_square (prhs 0) n hd he
  have hM : mxGetM (prhs 0) = n := by simp [mxGetM, hd]
  rw [mexFunction_accepted k nlhs prhs w hl hb, hok]
  simp only [Bool.false_eq_true, if_false]
  by_cases hp : (prhs 0).pi = NULL
  · obtain ⟨rest, hs⟩ := supply_of_ok_real (prhs 0) w hp hok
    obtain ⟨hdf, -, hIm, hres, -, -, hws, hwt, hheap⟩ := mexAllocate_real_ok (prhs 0) w rest hp hs
    refine ⟨⟨w.fresh + 1, 0⟩, ⟨w.fresh + 2, 0⟩, rfl, ?_, ?_, ?_, by simp⟩
    · simp [mexCompute, hres, hM]
    · rw [load_length, mexCompute_blockLen]
      · simp [World.blockLen, hheap, heapLookup, hM]
      · simp [hIm]
      · simp [hws]
      · simp [hwt]
    · rw [load_length, mexCompute_blockLen]
      · simp [World.blockLen, hheap, heapLookup, hM]
      · simp [hIm]
      · simp [hws]
      · simp [hwt]
  · obtain ⟨rest, hs⟩ := supply_of_ok_complex (prhs 0) w hp hok
    obtain ⟨hdf, -, hIm, hres, -, -, hws, hwt, hheap⟩ :=
      mexAllocate_complex_ok (prhs 0) w rest hp hs
    refine ⟨⟨w.fresh, 0⟩, ⟨w.fresh + 1, 0⟩, rfl, ?_, ?_, ?_, by simp⟩
    · simp [mexCompute, hres, hM]
    · rw [load_length, mexCompute_blockLen]
      · simp [World.blockLen, hheap, heapLookup, hM]
      · simp [hdf]
      · simp [hws]
      · simp [hwt]
    · rw [load_length, mexCompute_blockLen]
      · simp [World.blockLen, hheap, heapLookup, hM]
      · simp [hdf]
      · simp [hws]
      · simp [hwt]

/-- The single kernel call of a successful accepted call. -/
theorem kernel_call_unique (k : S2Kit) (nlhs : Int) (prhs : Nat → MxArray) (w : World)
    (hl : nlhs ≤ 1) (hb : badShape (prhs 0) = false)
    (hok : (mexAllocate (prhs 0) w).1.anyNull = false) :
    Event.FST_semi_fly (kernelCallOf k (mexAllocate (prhs 0) w).1 (mexAllocate (prhs 0) w).2)
        ∈ callEvents k nlhs 1 prhs w
      ∧ ∀ c, Event.FST_semi_fly c ∈ callEvents k nlhs 1 prhs w →
          c = kernelCallOf k (mexAllocate (prhs 0) w).1 (mexAllocate (prhs 0) w).2 := by
  rw [callEvents_ok k nlhs prhs w hl hb hok]
  refine ⟨by simp, ?_⟩
  intro c hc
  by_cases hp : (prhs 0).pi = NULL <;>
  by_cases hf : (mexAllocate (prhs 0) w).1.dataformat = 1 <;>
    simpa [allocEvents, freeEvents, hp, hf] using hc

/-- Range of the `int` expressions evaluated by `mexFunction`: up to bandwidth
14653 none of them leaves the 32-bit signed range, so on such grids the
mathematical integers of the model are the values of the C program. -/
theorem int_range (B : Int) (h0 : 0 ≤ B) (h : B ≤ 14653) :
    (2 * B) * (2 * B) ≤ 2147483647
      ∧ (10 * (B * B)) + (24 * B) ≤ 2147483647
      ∧ 4 * B * B ≤ 2147483647 := by
  have hBB : B * B ≤ 14653 * 14653 := by nlinarith
  refine ⟨?_, ?_, ?_⟩ <;> nlinarith

/-- The plane of the real example grid is a block of the example world. -/
theorem exReal_owned (s : List Bool) :
    ∀ p, (exArgs exReal 0).pr = some p ∨ (exArgs exReal 0).pi = some p →
      p.block < (exWorld s).fresh := by
  intro p hp
  rcases hp with hp | hp
  · have : p = ⟨0, 0⟩ := by simpa [exArgs, exReal] using hp.symm
    subst this; simp [exWorld]
  · simp [exArgs, exReal] at hp

/-- The planes of the complex example grid are blocks of the example world. -/
theorem exComplex_owned (s : List Bool) :
    ∀ p, (exArgs exComplex 0).pr = some p ∨ (exArgs exComplex 0).pi = some p →
      p.block < (exWorld s).fresh := by
  intro p hp
  rcases hp with hp | hp
  · have : p = ⟨0, 0⟩ := by simpa [exArgs, exComplex] using hp.symm
    subst this; simp [exWorld]
  · have : p = ⟨1, 0⟩ := by simpa [exArgs, exComplex] using hp.symm
    subst this; simp [exWorld]

/-! ## The claims -/

/-- C1: if more than one output is requested, or the number of inputs is not
exactly one, or the input grid is not 2-dimensional, or its row count differs
from its column count, or its side length is odd, then `mexFunction` ends with
a terminating error, and the call of `mexErrMsgTxt` is all it has done: the
heap and the allocation supply are untouched (no imaginary plane, output
array, workspace or weights were requested), no output is assigned, and
neither `makeweights` nor `FST_semi_fly` was entered. -/
theorem rejects_before_allocation (k : S2Kit) (nlhs nrhs : Int) (prhs : Nat → MxArray)
    (w : World)
    (h : nlhs > 1 ∨ nrhs ≠ 1 ∨ (prhs 0).dims.length ≠ 2 ∨ mxGetM (prhs 0) ≠ mxGetN (prhs 0)
      ∨ mxGetM (prhs 0) % 2 ≠ 0) :
    ∃ msg,
      msg ∈ ["Too many output arguments.", "Not enough input arguments.",
          "Too many input arguments.",
          "Input must be a 2*bandwidth x 2*bandwidth square matrix!"]
      ∧ mexFunction k nlhs nrhs prhs w = ⟨.error msg, [], w.emit (.mexErrMsgTxt msg)⟩
      ∧ callEvents k nlhs nrhs prhs w = [.mexErrMsgTxt msg] := by
  have key : ∃ msg,
      msg ∈ ["Too many output arguments.", "Not enough input arguments.",
          "Too many input arguments.",
          "Input must be a 2*bandwidth x 2*bandwidth square matrix!"]
      ∧ mexFunction k nlhs nrhs prhs w = ⟨.error msg, [], w.emit (.mexErrMsgTxt msg)⟩ := by
    unfold mexFunction
    by_cases h1 : nlhs > 1
    · rw [if_pos h1]; exact ⟨_, by simp, rfl⟩
    rw [if_neg h1]
    by_cases h2 : nrhs < 1
    · rw [if_pos h2]; exact ⟨_, by simp, rfl⟩
    rw [if_neg h2]
    by_cases h3 : nrhs > 1
    · rw [if_pos h3]; exact ⟨_, by simp, rfl⟩
    rw [if_neg h3]
    have hb : badShape (prhs 0) = true := by
      rcases h with h | h | h | h | h
      · exact absurd h h1
      · omega
      · simp [badShape, mxGetNumberOfDimensions, h]
      · simp [badShape, h]
      · simp [badShape, Nat.mod_two_ne_zero.mp h]
    simp only [hb, if_true]
    exact ⟨_, by simp, rfl⟩
  obtain ⟨msg, hm, he⟩ := key
  refine ⟨msg, hm, he, ?_⟩
  simp [callEvents, he, World.emit]

/-- C1 at a 3-by-3 grid (odd side length). -/
theorem rejects_before_allocation_witness :
    mxGetM (exArgs ⟨[3, 3], some ⟨0, 0⟩, none⟩ 0) % 2 ≠ 0
      ∧ ∃ msg,
        msg ∈ ["Too many output arguments.", "Not enough input arguments.",
            "Too many input arguments.",
            "Input must be a 2*bandwidth x 2*bandwidth square matrix!"]
        ∧ mexFunction exKit 1 1 (exArgs ⟨[3, 3], some ⟨0, 0⟩, none⟩) (exWorld exSupply)
            = ⟨.error msg, [], (exWorld exSupply).emit (.mexErrMsgTxt msg)⟩
        ∧ callEvents exKit 1 1 (exArgs ⟨[3, 3], some ⟨0, 0⟩, none⟩) (exWorld exSupply)
            = [.mexErrMsgTxt msg] :=
  ⟨by decide,
    rejects_before_allocation exKit 1 1 (exArgs ⟨[3, 3], some ⟨0, 0⟩, none⟩) (exWorld exSupply)
      (Or.inr (Or.inr (Or.inr (Or.inr (by decide)))))⟩

/-- C2, as stated, fails: a 0-by-0 grid whose data pointer is not NULL, with
every allocation succeeding, is not rejected. `mexFunction` enters
`FST_semi_fly` with bandwidth 0 and returns a 0-by-1 coefficient vector. -/
theorem zero_grid_reaches_kernel :
    (mexFunction exKit 1 1 (exArgs exEmpty) (exWorld exSupply)).status = .returned
      ∧ (mexFunction exKit 1 1 (exArgs exEmpty) (exWorld exSupply)).plhs
        = [(0, ⟨[0, 1], some ⟨3, 0⟩, some ⟨4, 0⟩⟩)]
      ∧ (kernelCalls (callEvents exKit 1 1 (exArgs exEmpty) (exWorld exSupply))).map (·.bw)
        = [0] := by
  decide

/-- C2, amended: `mexFunction` has no bandwidth test. For a 0-by-0 grid the
derived bandwidth is 0 and the call is decided by the memory test of lines
168-170 alone: if one of the six buffers is NULL (for instance the grid has no
real data) the call ends with "Error in allocating memory" before any plan,
`makeweights` or `FST_semi_fly`, and no output is assigned; if all six are
present the kernel is entered with bandwidth 0 and a 0-by-1 complex vector is
returned. -/
theorem zero_grid_outcome (k : S2Kit) (nlhs : Int) (prhs : Nat → MxArray) (w : World)
    (hl : nlhs ≤ 1) (hd : (prhs 0).dims = [0, 0]) :
    (mexAllocate (prhs 0) w).1.bandwidth = 0
      ∧ ((mexAllocate (prhs 0) w).1.anyNull = true →
          (mexFunction k nlhs 1 prhs w).status = .error "Error in allocating memory"
            ∧ (mexFunction k nlhs 1 prhs w).plhs = []
            ∧ ∀ e ∈ callEvents k nlhs 1 prhs w, e.isCompute = false)
      ∧ ((mexAllocate (prhs 0) w).1.anyNull = false →
          (mexFunction k nlhs 1 prhs w).status = .returned
            ∧ (∃ re im : Ptr,
                (mexFunction k nlhs 1 prhs w).plhs = [(0, ⟨[0, 1], some re, some im⟩)])
            ∧ ∃ c, Event.FST_semi_fly c ∈ callEvents k nlhs 1 prhs w ∧ c.bw = 0) := by
  have hb := badShape_square (prhs 0) 0 hd rfl
  have hB : (mexAllocate (prhs 0) w).1.bandwidth = 0 := by
    rw [mexAllocate_bandwidth_of_dims (prhs 0) w 0 hd]; rfl
  refine ⟨hB, fun hn => ?_, fun hok => ?_⟩
  · obtain ⟨h1, h2, h3, -⟩ := fail_outcome k nlhs prhs w hl hb hn
    exact ⟨h1, h2, h3⟩
  · obtain ⟨re, im, h1, h2, -⟩ := ok_outcome k nlhs prhs w 0 hl hd rfl hok
    refine ⟨h1, ⟨re, im, by simpa using h2⟩, _, (kernel_call_unique k nlhs prhs w hl hb hok).1, ?_⟩
    simp [kernelCallOf, hB]

/-- C2 amended, at the 0-by-0 grid with a data pointer and five successful
allocations. -/
theorem zero_grid_outcome_witness :
    (mexAllocate (exArgs exEmpty 0) (exWorld exSupply)).1.anyNull = false
      ∧ (mexFunction exKit 1 1 (exArgs exEmpty) (exWorld exSupply)).status = .returned
      ∧ (∃ re im : Ptr,
          (mexFunction exKit 1 1 (exArgs exEmpty) (exWorld exSupply)).plhs
            = [(0, ⟨[0, 1], some re, some im⟩)])
      ∧ ∃ c, Event.FST_semi_fly c ∈ callEvents exKit 1 1 (exArgs exEmpty) (exWorld exSupply)
          ∧ c.bw = 0 :=
  ⟨by decide,
    (zero_grid_outcome exKit 1 (exArgs exEmpty) (exWorld exSupply) (by decide) rfl).2.2
      (by decide)⟩

/-- C3: for an accepted grid of side `n` (2-dimensional, square, `n` even) for
which all six buffers tested at lines 168-170 are present, `mexFunction`
returns normally and assigns exactly one output, `plhs[0]`: a complex matrix
with dimensions `B*B`-by-1, `B = n/2`, whose real and imaginary planes are two
distinct blocks of exactly `B*B` doubles each; and `2*B = n`. -/
theorem returns_bandwidth_squared (k : S2Kit) (nlhs : Int) (prhs : Nat → MxArray)
    (w : World) (n : Nat) (hl : nlhs ≤ 1) (hd : (prhs 0).dims = [n, n]) (he : n % 2 = 0)
    (hok : (mexAllocate (prhs 0) w).1.anyNull = false) :
    ∃ re im : Ptr,
      (mexFunction k nlhs 1 prhs w).status = .returned
      ∧ (mexFunction k nlhs 1 prhs w).plhs = [(0, ⟨[(n / 2) * (n / 2), 1], some re, some im⟩)]
      ∧ ((mexFunction k nlhs 1 prhs w).world.load (some re)).length = (n / 2) * (n / 2)
      ∧ ((mexFunction k nlhs 1 prhs w).world.load (some im)).length = (n / 2) * (n / 2)
      ∧ re.block ≠ im.block
      ∧ 2 * (n / 2) = n := by
  obtain ⟨re, im, h1, h2, h3, h4, h5⟩ := ok_outcome k nlhs prhs w n hl hd he hok
  exact ⟨re, im, h1, h2, h3, h4, h5, by omega⟩

/-- C3 at a real 2-by-2 grid: one coefficient. -/
theorem returns_bandwidth_squared_witness :
    (mexAllocate (exArgs exReal 0) (exWorld exSupply)).1.anyNull = false
      ∧ ∃ re im : Ptr,
        (mexFunction exKit 1 1 (exArgs exReal) (exWorld exSupply)).status = .returned
        ∧ (mexFunction exKit 1 1 (exArgs exReal) (exWorld exSupply)).plhs
            = [(0, ⟨[(2 / 2) * (2 / 2), 1], some re, some im⟩)]
        ∧ ((mexFunction exKit 1 1 (exArgs exReal) (exWorld exSupply)).world.load
            (some re)).length = (2 / 2) * (2 / 2)
        ∧ ((mexFunction exKit 1 1 (exArgs exReal) (exWorld exSupply)).world.load
            (some im)).length = (2 / 2) * (2 / 2)
        ∧ re.block ≠ im.block
        ∧ 2 * (2 / 2) = 2 :=
  ⟨by decide,
    returns_bandwidth_squared exKit 1 (exArgs exReal) (exWorld exSupply) 2 (by decide) rfl rfl
      (by decide)⟩

/-- C4: for an accepted grid with bandwidth `B = n/2`, `mexFunction` makes
exactly two `mxMalloc` requests: one of `sizeof(double) * (10*B*B + 24*B)`
bytes, the workspace, and one of `sizeof(double) * 4*B` bytes, the weights.
When the call returns, the pointer obtained by the second request is the one
handed to `makeweights` (with bandwidth `B`), and the two pointers are the
workspace and weights arguments of the single `FST_semi_fly` call. -/
theorem buffer_requests (k : S2Kit) (nlhs : Int) (prhs : Nat → MxArray)
    (w : World) (n : Nat) (hl : nlhs ≤ 1) (hd : (prhs 0).dims = [n, n]) (he : n % 2 = 0) :
    ∃ workspace weights : CPtr,
      Event.mxMalloc (sizeofDouble * (10 * ((n / 2 : Nat) * (n / 2 : Nat)) + 24 * (n / 2 : Nat)))
          workspace ∈ callEvents k nlhs 1 prhs w
      ∧ Event.mxMalloc (sizeofDouble * (4 * (n / 2 : Nat))) weights ∈ callEvents k nlhs 1 prhs w
      ∧ (∀ bytes r, Event.mxMalloc bytes r ∈ callEvents k nlhs 1 prhs w →
          (bytes = sizeofDouble * (10 * ((n / 2 : Nat) * (n / 2 : Nat)) + 24 * (n / 2 : Nat))
              ∧ r = workspace)
            ∨ (bytes = sizeofDouble * (4 * (n / 2 : Nat)) ∧ r = weights))
      ∧ ((mexFunction k nlhs 1 prhs w).status = .returned →
          (∀ e ∈ callEvents k nlhs 1 prhs w, ∀ bw p, e = Event.makeweights bw p →
              bw = (n / 2 : Nat) ∧ p = weights)
          ∧ Event.makeweights (n / 2 : Nat) weights ∈ callEvents k nlhs 1 prhs w
          ∧ ∃ c, Event.FST_semi_fly c ∈ callEvents k nlhs 1 prhs w
              ∧ (∀ c', Event.FST_semi_fly c' ∈ callEvents k nlhs 1 prhs w → c' = c)
              ∧ c.workspace = workspace ∧ c.weights = weights ∧ c.bw = (n / 2 : Nat)) := by
  have hb := badShape_square (prhs 0) n hd he
  have hB := mexAllocate_bandwidth_of_dims (prhs 0) w n hd
  refine ⟨(mexAllocate (prhs 0) w).1.workspace, (mexAllocate (prhs 0) w).1.weights, ?_⟩
  cases hn : (mexAllocate (prhs 0) w).1.anyNull
  · rw [callEvents_ok k nlhs prhs w hl hb hn, mexFunction_accepted k nlhs prhs w hl hb, hn]
    by_cases hp : (prhs 0).pi = NULL <;>
    by_cases hf : (mexAllocate (prhs 0) w).1.dataformat = 1 <;>
      simp [allocEvents, freeEvents, hp, hf, hB, kernelCallOf, mul_assoc]
  · rw [callEvents_fail k nlhs prhs w hl hb hn, mexFunction_accepted k nlhs prhs w hl hb, hn]
    by_cases hp : (prhs 0).pi = NULL <;>
    by_cases hf : (mexAllocate (prhs 0) w).1.dataformat = 1 <;>
      simp [allocEvents, freeEvents, hp, hf, hB, mexFail, mexErrMsgTxt, mul_assoc]

/-- C4 at a complex 2-by-2 grid: 34 doubles of workspace, 4 doubles of weights. -/
theorem buffer_requests_witness :
    Event.mxMalloc (8 * 34) (some ⟨4, 0⟩)
        ∈ callEvents exKit 1 1 (exArgs exComplex) (exWorld exSupply)
      ∧ Event.mxMalloc (8 * 4) (some ⟨5, 0⟩)
        ∈ callEvents exKit 1 1 (exArgs exComplex) (exWorld exSupply)
      ∧ ∃ workspace weights : CPtr,
        Event.mxMalloc (sizeofDouble * (10 * ((2 / 2 : Nat) * (2 / 2 : Nat)) + 24 * (2 / 2 : Nat)))
            workspace ∈ callEvents exKit 1 1 (exArgs exComplex) (exWorld exSupply)
        ∧ Event.mxMalloc (sizeofDouble * (4 * (2 / 2 : Nat))) weights
            ∈ callEvents exKit 1 1 (exArgs exComplex) (exWorld exSupply) :=
  ⟨by decide, by decide,
    (buffer_requests exKit 1 (exArgs exComplex) (exWorld exSupply) 2 (by decide) rfl rfl).imp
      fun _ h => h.imp fun _ h' => ⟨h'.1, h'.2.1⟩⟩

/-- C5: for an accepted grid of side `n` whose six buffers are all present and
whose planes are blocks that existed before the call, `mexFunction` enters
`FST_semi_fly` exactly once, with the caller's real plane, unchanged. If the
grid has no imaginary plane, the call carries `dataformat = 1` (REAL) and an
imaginary plane that is a new block of `n*n` doubles, all zero. If the grid has
an imaginary plane, the call carries `dataformat = 0` (COMPLEX) and the
caller's own imaginary plane, unchanged. -/
theorem kernel_receives_planes (k : S2Kit) (nlhs : Int) (prhs : Nat → MxArray)
    (w : World) (n : Nat) (hl : nlhs ≤ 1) (hd : (prhs 0).dims = [n, n]) (he : n % 2 = 0)
    (hok : (mexAllocate (prhs 0) w).1.anyNull = false)
    (hown : ∀ p, (prhs 0).pr = some p ∨ (prhs 0).pi = some p → p.block < w.fresh) :
    ∃ c : KernelCall,
      Event.FST_semi_fly c ∈ callEvents k nlhs 1 prhs w
      ∧ (∀ c', Event.FST_semi_fly c' ∈ callEvents k nlhs 1 prhs w → c' = c)
      ∧ c.rdata = (prhs 0).pr
      ∧ c.rsamples = w.load (prhs 0).pr
      ∧ ((prhs 0).pi = NULL →
          c.dataformat = 1 ∧ c.idata = some ⟨w.fresh, 0⟩
            ∧ c.isamples = List.replicate (n * n) (some Dbl.zero))
      ∧ ((prhs 0).pi ≠ NULL →
          c.dataformat = 0 ∧ c.idata = (prhs 0).pi ∧ c.isamples = w.load (prhs 0).pi) := by
  have hb := badShape_square (prhs 0) n hd he
  have hM : mxGetM (prhs 0) = n := by simp [mxGetM, hd]
  obtain ⟨hmem, huniq⟩ := kernel_call_unique k nlhs prhs w hl hb hok
  refine ⟨kernelCallOf k (mexAllocate (prhs 0) w).1 (mexAllocate (prhs 0) w).2, hmem, huniq, ?_⟩
  by_cases hp : (prhs 0).pi = NULL
  · obtain ⟨rest, hs⟩ := supply_of_ok_real (prhs 0) w hp hok
    obtain ⟨hdf, hRe, hIm, -, -, -, -, hwt, hheap⟩ :=
      mexAllocate_real_ok (prhs 0) w rest hp hs
    refine ⟨hRe, ?_, ?_, fun h => absurd hp h⟩
    · simp only [kernelCallOf, hRe, hwt]
      rw [load_store_ne]
      · apply load_of_heap
        intro q hq
        have := hown q (Or.inl hq)
        have h0 : ¬ w.fresh = q.block := by omega
        have h1 : ¬ w.fresh + 1 = q.block := by omega
        have h2 : ¬ w.fresh + 2 = q.block := by omega
        have h3 : ¬ w.fresh + 3 = q.block := by omega
        have h4 : ¬ w.fresh + 4 = q.block := by omega
        simp [hheap, heapLookup, h0, h1, h2, h3, h4]
      · intro a b ha hb'
        have := hown b (Or.inl hb')
        cases ha
        simp only; omega
    · intro _
      refine ⟨hdf, hIm, ?_⟩
      simp only [kernelCallOf, hIm, hwt]
      rw [load_store_ne]
      · simp [World.load, hheap, heapLookup, hM]
      · intro a b ha hb'
        cases ha; cases hb'
        simp
  · obtain ⟨rest, hs⟩ := supply_of_ok_complex (prhs 0) w hp hok
    obtain ⟨hdf, hRe, hIm, -, -, -, -, hwt, hheap⟩ :=
      mexAllocate_complex_ok (prhs 0) w rest hp hs
    have hload : ∀ p : CPtr, (∀ q, p = some q → q.block < w.fresh) →
        ((mexAllocate (prhs 0) w).2.store (some ⟨w.fresh + 3, 0⟩)
          (k.makeweights (mexAllocate (prhs 0) w).1.bandwidth)).load p = w.load p := by
      intro p hlt
      rw [load_store_ne]
      · apply load_of_heap
        intro q hq
        have := hlt q hq
        have h0 : ¬ w.fresh = q.block := by omega
        have h1 : ¬ w.fresh + 1 = q.block := by omega
        have h2 : ¬ w.fresh + 2 = q.block := by omega
        have h3 : ¬ w.fresh + 3 = q.block := by omega
        simp [hheap, heapLookup, h0, h1, h2, h3]
      · intro a b ha hb'
        have := hlt b hb'
        cases ha
        simp only; omega
    refine ⟨hRe, ?_, fun h => absurd h hp, fun _ => ⟨hdf, hIm, ?_⟩⟩
    · simp only [kernelCallOf, hRe, hwt]
      exact hload _ fun q hq => hown q (Or.inl hq)
    · simp only [kernelCallOf, hIm, hwt]
      exact hload _ fun q hq => hown q (Or.inr hq)

/-- C5 at a real and at a complex 2-by-2 grid. -/
theorem kernel_receives_planes_witness :
    (∃ c : KernelCall,
        Event.FST_semi_fly c ∈ callEvents exKit 1 1 (exArgs exReal) (exWorld exSupply)
        ∧ c.dataformat = 1 ∧ c.rdata = some ⟨0, 0⟩ ∧ c.idata = some ⟨2, 0⟩
        ∧ c.rsamples = List.replicate 4 (some ⟨4⟩)
        ∧ c.isamples = List.replicate (2 * 2) (some Dbl.zero))
      ∧ ∃ c : KernelCall,
        Event.FST_semi_fly c ∈ callEvents exKit 1 1 (exArgs exComplex) (exWorld exSupply)
        ∧ c.dataformat = 0 ∧ c.rdata = some ⟨0, 0⟩ ∧ c.idata = some ⟨1, 0⟩
        ∧ c.rsamples = List.replicate 4 (some ⟨4⟩)
        ∧ c.isamples = List.replicate 4 (some ⟨5⟩) :=
  ⟨(kernel_receives_planes exKit 1 (exArgs exReal) (exWorld exSupply) 2 (by decide) rfl rfl
      (by decide) (exReal_owned exSupply)).imp
      fun _ h => ⟨h.1, (h.2.2.2.2.1 rfl).1, h.2.2.1, (h.2.2.2.2.1 rfl).2.1, h.2.2.2.1,
        (h.2.2.2.2.1 rfl).2.2⟩,
    (kernel_receives_planes exKit 1 (exArgs exComplex) (exWorld exSupply) 2 (by decide) rfl rfl
      (by decide) (exComplex_owned exSupply)).imp
      fun _ h => ⟨h.1, (h.2.2.2.2.2 (by decide)).1, h.2.2.1, (h.2.2.2.2.2 (by decide)).2.1,
        h.2.2.2.1, (h.2.2.2.2.2 (by decide)).2.2⟩⟩

/-- C6: for an accepted call in which the data, output, workspace or weights
buffer is unavailable (one of the six pointers tested at lines 168-170 is
NULL), `mexFunction` ends with the error "Error in allocating memory"; no FFTW
plan was created and neither `makeweights` nor `FST_semi_fly` was entered
before it (the error is the last event of the call), and no output is
assigned: `plhs[0]` is left unset. -/
theorem allocation_failure_is_fatal (k : S2Kit) (nlhs : Int) (prhs : Nat → MxArray)
    (w : World) (n : Nat) (hl : nlhs ≤ 1) (hd : (prhs 0).dims = [n, n]) (he : n % 2 = 0)
    (hnull : (mexAllocate (prhs 0) w).1.ReData = NULL
      ∨ (mexAllocate (prhs 0) w).1.ImData = NULL
      ∨ (mexAllocate (prhs 0) w).1.ReResult = NULL
      ∨ (mexAllocate (prhs 0) w).1.ImResult = NULL
      ∨ (mexAllocate (prhs 0) w).1.workspace = NULL
      ∨ (mexAllocate (prhs 0) w).1.weights = NULL) :
    (mexFunction k nlhs 1 prhs w).status = .error "Error in allocating memory"
      ∧ (mexFunction k nlhs 1 prhs w).plhs = []
      ∧ (∀ e ∈ callEvents k nlhs 1 prhs w, e.isCompute = false)
      ∧ (callEvents k nlhs 1 prhs w).getLast?
          = some (.mexErrMsgTxt "Error in allocating memory") := by
  have hb := badShape_square (prhs 0) n hd he
  have hn : (mexAllocate (prhs 0) w).1.anyNull = true := by
    simp only [Locals.anyNull, Bool.or_eq_true, beq_iff_eq]
    tauto
  exact fail_outcome k nlhs prhs w hl hb hn

/-- C6 at a real 2-by-2 grid when the weights allocation fails. -/
theorem allocation_failure_is_fatal_witness :
    (mexAllocate (exArgs exReal 0) (exWorld [true, true, true, true, false])).1.weights = NULL
      ∧ (mexFunction exKit 1 1 (exArgs exReal) (exWorld [true, true, true, true, false])).status
          = .error "Error in allocating memory"
      ∧ (mexFunction exKit 1 1 (exArgs exReal) (exWorld [true, true, true, true, false])).plhs
          = []
      ∧ (∀ e ∈ callEvents exKit 1 1 (exArgs exReal) (exWorld [true, true, true, true, false]),
          e.isCompute = false)
      ∧ (callEvents exKit 1 1 (exArgs exReal) (exWorld [true, true, true, true, false])).getLast?
          = some (.mexErrMsgTxt "Error in allocating memory") :=
  ⟨by decide,
    allocation_failure_is_fatal exKit 1 (exArgs exReal) (exWorld [true, true, true, true, false]) 2
      (by decide) rfl rfl (Or.inr (Or.inr (Or.inr (Or.inr (Or.inr (by decide))))))⟩

/-- C7, as stated, fails: on a real 2-by-2 grid whose workspace allocation
fails, the error is not reported at the failing `mxMalloc`: the weights are
still requested after it, and the error comes after the single memory test.
When it is reported the two planes of the output array (blocks 3 and 4) are
still live: only the synthesized imaginary plane, the workspace and the
weights are released. -/
theorem failure_leaves_output_live :
    (mexFunction exKit 1 1 (exArgs exReal) (exWorld [true, true, true, false, true])).status
        = .error "Error in allocating memory"
      ∧ callEvents exKit 1 1 (exArgs exReal) (exWorld [true, true, true, false, true])
        = [.mxCalloc 4 8 (some ⟨2, 0⟩),
            .mxCreateDoubleMatrix 1 1 .mxCOMPLEX ⟨[1, 1], some ⟨3, 0⟩, some ⟨4, 0⟩⟩,
            .mxMalloc 272 none,
            .mxMalloc 32 (some ⟨5, 0⟩),
            .mxFree (some ⟨2, 0⟩), .mxFree none, .mxFree (some ⟨5, 0⟩),
            .mexErrMsgTxt "Error in allocating memory"]
      ∧ (mexFunction exKit 1 1 (exArgs exReal)
          (exWorld [true, true, true, false, true])).world.live 3 = true
      ∧ (mexFunction exKit 1 1 (exArgs exReal)
          (exWorld [true, true, true, false, true])).world.live 4 = true := by
  decide

/-- C7, amended: in an accepted call in which one of the six buffers is
missing, the error is reported once, as the last event of the call, after all
allocation requests have been made (four when the imaginary plane is
synthesized, three otherwise) and after the releases; every buffer the call
obtained from `mxCalloc` or `mxMalloc` (the synthesized imaginary plane, the
workspace, the weights) has been released by then. In every accepted call a
caller-owned imaginary plane is never passed to `mxFree` and stays as live as
it was. -/
theorem releases_scratch_on_failure (k : S2Kit) (nlhs : Int) (prhs : Nat → MxArray)
    (w : World) (n : Nat) (hl : nlhs ≤ 1) (hd : (prhs 0).dims = [n, n]) (he : n % 2 = 0) :
    ((mexAllocate (prhs 0) w).1.anyNull = true →
        (∃ A F : List Event,
          callEvents k nlhs 1 prhs w = A ++ F ++ [.mexErrMsgTxt "Error in allocating memory"]
            ∧ (∀ e ∈ A, e.isAlloc = true)
            ∧ A.length = (if (prhs 0).pi = NULL then 4 else 3)
            ∧ (∀ e ∈ F, ∃ p, e = Event.mxFree p))
        ∧ (∀ (p : Ptr) (m : Int) (s : Nat),
            Event.mxCalloc m s (some p) ∈ callEvents k nlhs 1 prhs w
              ∨ Event.mxMalloc m (some p) ∈ callEvents k nlhs 1 prhs w →
            (mexFunction k nlhs 1 prhs w).world.live p.block = false))
      ∧ (∀ p, (prhs 0).pi = some p → p.block < w.fresh →
          (∀ q, Event.mxFree (some q) ∈ callEvents k nlhs 1 prhs w → q.block ≠ p.block)
            ∧ (mexFunction k nlhs 1 prhs w).world.live p.block = w.live p.block) := by
  have hb := badShape_square (prhs 0) n hd he
  obtain ⟨fws, fwt, fim, fold⟩ := mexAllocate_frame (prhs 0) w
  have hdf := mexAllocate_dataformat (prhs 0) w
  refine ⟨fun hn => ⟨⟨allocEvents (prhs 0) w, freeEvents (mexAllocate (prhs 0) w).1,
      callEvents_fail k nlhs prhs w hl hb hn, allocEvents_isAlloc _ _, ?_, freeEvents_isFree _⟩,
      ?_⟩, ?_⟩
  · by_cases hp : (prhs 0).pi = NULL <;> simp [allocEvents, hp]
  · intro p m s hmem
    rw [callEvents_fail k nlhs prhs w hl hb hn, mexFunction_accepted k nlhs prhs w hl hb,
      if_pos hn, live_eq_blockLen, mexFail_blockLen] at *
    have key : ((mexAllocate (prhs 0) w).1.dataformat = 1
          ∧ (mexAllocate (prhs 0) w).1.ImData.map Ptr.block = some p.block)
        ∨ (mexAllocate (prhs 0) w).1.workspace.map Ptr.block = some p.block
        ∨ (mexAllocate (prhs 0) w).1.weights.map Ptr.block = some p.block := by
      by_cases hp : (prhs 0).pi = NULL
      · simp only [hp, if_true] at hdf
        simp only [allocEvents, freeEvents, hp, hdf, if_true] at hmem
        simp at hmem
        rcases hmem with ⟨-, -, h⟩ | ⟨-, h⟩ | ⟨-, h⟩
        · exact Or.inl ⟨hdf, by simp [← h]⟩
        · exact Or.inr (Or.inl (by simp [← h]))
        · exact Or.inr (Or.inr (by simp [← h]))
      · simp only [hp, if_false] at hdf
        simp only [allocEvents, freeEvents, hp, hdf, if_false] at hmem
        simp at hmem
        rcases hmem with ⟨-, h⟩ | ⟨-, h⟩
        · exact Or.inr (Or.inl (by simp [← h]))
        · exact Or.inr (Or.inr (by simp [← h]))
    rw [if_pos key]; rfl
  · intro p hpi hlt
    have hp : (prhs 0).pi ≠ NULL := by rw [hpi]; simp [NULL]
    simp only [hp, if_false] at hdf
    have hd0 : ¬ (mexAllocate (prhs 0) w).1.dataformat = 1 := by rw [hdf]; decide
    have hws : (mexAllocate (prhs 0) w).1.workspace.map Ptr.block ≠ some p.block := by
      intro h
      cases hq : (mexAllocate (prhs 0) w).1.workspace with
      | none => simp [hq] at h
      | some q =>
        have := fws q hq
        simp [hq] at h
        omega
    have hwt : (mexAllocate (prhs 0) w).1.weights.map Ptr.block ≠ some p.block := by
      intro h
      cases hq : (mexAllocate (prhs 0) w).1.weights with
      | none => simp [hq] at h
      | some q =>
        have := fwt q hq
        simp [hq] at h
        omega
    refine ⟨?_, ?_⟩
    · intro q hq heq
      have hq' : Event.mxFree (some q) ∈ freeEvents (mexAllocate (prhs 0) w).1 := by
        cases hn : (mexAllocate (prhs 0) w).1.anyNull
        · rw [callEvents_ok k nlhs prhs w hl hb hn] at hq
          by_cases hp' : (prhs 0).pi = NULL
          · exact absurd hp' hp
          · simpa [allocEvents, hp'] using hq
        · rw [callEvents_fail k nlhs prhs w hl hb hn] at hq
          by_cases hp' : (prhs 0).pi = NULL
          · exact absurd hp' hp
          · simpa [allocEvents, hp'] using hq
      simp only [freeEvents, hd0, if_false, List.nil_append, List.mem_cons, List.mem_singleton,
        Event.mxFree.injEq, List.not_mem_nil, or_false] at hq'
      rcases hq' with h | h
      · exact hws (by simp [← h, heq])
      · exact hwt (by simp [← h, heq])
    · rw [mexFunction_accepted k nlhs prhs w hl hb, live_eq_blockLen, live_eq_blockLen]
      cases hn : (mexAllocate (prhs 0) w).1.anyNull
      · simp only [Bool.false_eq_true, if_false]
        rw [mexCompute_blockLen k _ _ _ (fun h => absurd h hd0) hws hwt, fold _ hlt]
      · simp only [if_true]
        rw [mexFail_blockLen, if_neg, fold _ hlt]
        rintro (⟨h, -⟩ | h | h)
        · exact hd0 h
        · exact hws h
        · exact hwt h

/-- C7 amended, at a complex 2-by-2 grid whose workspace allocation fails: the
weights (block 4) are released, the caller's imaginary plane (block 1) stays. -/
theorem releases_scratch_on_failure_witness :
    (mexAllocate (exArgs exComplex 0) (exWorld [true, true, false, true])).1.anyNull = true
      ∧ Event.mxMalloc 32 (some ⟨4, 0⟩)
          ∈ callEvents exKit 1 1 (exArgs exComplex) (exWorld [true, true, false, true])
      ∧ (mexFunction exKit 1 1 (exArgs exComplex)
          (exWorld [true, true, false, true])).world.live 4 = false
      ∧ (mexFunction exKit 1 1 (exArgs exComplex)
          (exWorld [true, true, false, true])).world.live 1
          = (exWorld [true, true, false, true]).live 1 :=
  ⟨by decide, by decide,
    ((releases_scratch_on_failure exKit 1 (exArgs exComplex) (exWorld [true, true, false, true]) 2
      (by decide) rfl rfl).1 (by decide)).2 ⟨4, 0⟩ 32 0 (Or.inr (by decide)),
    ((releases_scratch_on_failure exKit 1 (exArgs exComplex) (exWorld [true, true, false, true]) 2
      (by decide) rfl rfl).2 ⟨1, 0⟩ rfl (by decide)).2⟩

/-- C8: for every bandwidth `B`, the forward FFT plan built by `mexFunction`
on an accepted `2B`-by-`2B` grid (the only guru plan of the call) is a rank-1
transform of length `2B` repeated `2B` times, in which element `i` of
transform `j` is read from input index `j*2B + i` and written to output index
`i*2B + j`: the output index map is the transpose of the input index map. Its
input is the caller's real plane; its real output plane is the workspace at
offset 0 and its imaginary output plane the workspace at offset `4*B*B`. -/
theorem fft_plan_transposes (k : S2Kit) (nlhs : Int) (prhs : Nat → MxArray)
    (w : World) (B : Nat) (hl : nlhs ≤ 1) (hd : (prhs 0).dims = [2 * B, 2 * B])
    (hok : (mexAllocate (prhs 0) w).1.anyNull = false) :
    ∃ (p : GuruPlan) (workspace : Ptr),
      Event.fftw_plan_guru_split_dft p ∈ callEvents k nlhs 1 prhs w
      ∧ (∀ q, Event.fftw_plan_guru_split_dft q ∈ callEvents k nlhs 1 prhs w → q = p)
      ∧ Event.mxMalloc (sizeofDouble * (10 * ((B : Int) * B) + 24 * B)) (some workspace)
          ∈ callEvents k nlhs 1 prhs w
      ∧ p.rank = 1 ∧ p.howmany_rank = 1
      ∧ p.howmany = some (2 * (B : Int)) ∧ p.length = some (2 * (B : Int))
      ∧ (∀ j i : Int, p.inputIndex j i = some (j * (2 * B) + i))
      ∧ (∀ j i : Int, p.outputIndex j i = some (i * (2 * B) + j))
      ∧ (∀ j i : Int, p.outputIndex j i = p.inputIndex i j)
      ∧ p.ri = (prhs 0).pr
      ∧ p.ro = some ⟨workspace.block, workspace.off + 0⟩
      ∧ p.io = some ⟨workspace.block, workspace.off + 4 * B * B⟩ := by
  have hb : badShape (prhs 0) = false := badShape_square (prhs 0) (2 * B) hd (by omega)
  have hB : (mexAllocate (prhs 0) w).1.bandwidth = (B : Int) := by
    rw [mexAllocate_bandwidth_of_dims (prhs 0) w (2 * B) hd]; simp
  have hws : ∃ ws : Ptr, (mexAllocate (prhs 0) w).1.workspace = some ws := by
    have h := hok
    simp only [Locals.anyNull, Bool.or_eq_false_iff, beq_eq_false_iff_ne] at h
    exact Option.ne_none_iff_exists'.mp h.1.2
  obtain ⟨ws, hws⟩ := hws
  refine ⟨fftPlanOf (mexAllocate (prhs 0) w).1, ws, ?_⟩
  rw [callEvents_ok k nlhs prhs w hl hb hok]
  refine ⟨by simp, ?_, ?_, rfl, rfl, ?_, ?_, ?_, ?_, ?_, rfl, ?_, ?_⟩
  · intro q hq
    by_cases hp : (prhs 0).pi = NULL <;>
    by_cases hf : (mexAllocate (prhs 0) w).1.dataformat = 1 <;>
      simpa [allocEvents, freeEvents, hp, hf] using hq
  · by_cases hp : (prhs 0).pi = NULL <;>
      simp [allocEvents, hp, hB, hws]
  · simp [GuruPlan.howmany, fftPlanOf, hB]
  · simp [GuruPlan.length, fftPlanOf, hB]
  · intro j i; simp [GuruPlan.inputIndex, fftPlanOf, iodimIn, hB]
  · intro j i; simp [GuruPlan.outputIndex, fftPlanOf, iodimOut, hB]; ring
  · intro j i; simp [GuruPlan.outputIndex, GuruPlan.inputIndex, fftPlanOf, iodimOut, iodimIn]
    ring
  · simp [fftPlanOf, hws]
  · simp [fftPlanOf, hws, ptrAdd, hB]

/-- C8 at a real 2-by-2 grid (bandwidth 1): two transforms of length two;
element 0 of transform 1 is read at index 2 and written at index 1. -/
theorem fft_plan_transposes_witness :
    (mexAllocate (exArgs exReal 0) (exWorld exSupply)).1.anyNull = false
      ∧ ∃ (p : GuruPlan) (workspace : Ptr),
        Event.fftw_plan_guru_split_dft p ∈ callEvents exKit 1 1 (exArgs exReal) (exWorld exSupply)
        ∧ p.howmany = some (2 * ((1 : Nat) : Int)) ∧ p.length = some (2 * ((1 : Nat) : Int))
        ∧ p.inputIndex 1 0 = some (1 * (2 * ((1 : Nat) : Int)) + 0)
        ∧ p.outputIndex 1 0 = some (0 * (2 * ((1 : Nat) : Int)) + 1)
        ∧ p.io = some ⟨workspace.block, workspace.off + 4 * ((1 : Nat) : Int) * ((1 : Nat) : Int)⟩ := by
  refine ⟨by decide, ?_⟩
  obtain ⟨p, ws, h1, -, -, -, -, h6, h7, h8, h9, -, -, -, h13⟩ :=
    fft_plan_transposes exKit 1 (exArgs exReal) (exWorld exSupply) 1 (by decide) rfl (by decide)
  exact ⟨p, ws, h1, h6, h7, h8 1 0, h9 1 0, h13⟩

/-- C10: for every bandwidth `B` (integers are unbounded in the model), on an
accepted `2B`-by-`2B` grid every index the FFT plan of `mexFunction` writes
lies inside the workspace it allocated. The workspace was requested with
`10*B*B + 24*B` doubles and the plan writes its real plane from offset 0 and
its imaginary plane from offset `4*B*B`; for all `j`, `i` in `[0, 2B)` the
output index `i*2B + j` is in `[0, 4*B*B)`, so the real plane stays below the
imaginary plane, and `4*B*B + i*2B + j < 8*B*B ≤ 10*B*B + 24*B`. The DCT plan
is planned on the weights buffer, requested with `4*B` doubles, with length
`2B ≤ 4B`. -/
theorem plan_outputs_within_workspace (k : S2Kit) (nlhs : Int) (prhs : Nat → MxArray)
    (w : World) (B : Nat) (hl : nlhs ≤ 1) (hd : (prhs 0).dims = [2 * B, 2 * B])
    (hok : (mexAllocate (prhs 0) w).1.anyNull = false) :
    ∃ (p : GuruPlan) (d : R2RPlan) (ws wt : Ptr),
      Event.fftw_plan_guru_split_dft p ∈ callEvents k nlhs 1 prhs w
      ∧ Event.fftw_plan_r2r_1d d ∈ callEvents k nlhs 1 prhs w
      ∧ Event.mxMalloc (sizeofDouble * (10 * ((B : Int) * B) + 24 * B)) (some ws)
          ∈ callEvents k nlhs 1 prhs w
      ∧ Event.mxMalloc (sizeofDouble * (4 * (B : Int))) (some wt) ∈ callEvents k nlhs 1 prhs w
      ∧ ws.off = 0 ∧ wt.off = 0
      ∧ p.ro = some ws ∧ p.io = some ⟨ws.block, 4 * B * B⟩
      ∧ (∀ j i : Int, 0 ≤ j → j < 2 * B → 0 ≤ i → i < 2 * B →
          p.outputIndex j i = some (i * (2 * B) + j)
            ∧ 0 ≤ i * (2 * B) + j
            ∧ i * (2 * B) + j < 4 * B * B
            ∧ 4 * B * B + (i * (2 * B) + j) < 8 * B * B)
      ∧ 8 * (B : Int) * B ≤ 10 * ((B : Int) * B) + 24 * B
      ∧ d.inp = some wt ∧ d.n = 2 * B ∧ d.n ≤ 4 * B := by
  have hb : badShape (prhs 0) = false := badShape_square (prhs 0) (2 * B) hd (by omega)
  have hB : (mexAllocate (prhs 0) w).1.bandwidth = (B : Int) := by
    rw [mexAllocate_bandwidth_of_dims (prhs 0) w (2 * B) hd]; simp
  have hB0 : (0 : Int) ≤ B := Int.natCast_nonneg B
  have hptr : ∃ ws wt : Ptr, (mexAllocate (prhs 0) w).1.workspace = some ws
      ∧ (mexAllocate (prhs 0) w).1.weights = some wt ∧ ws.off = 0 ∧ wt.off = 0 := by
    by_cases hp : (prhs 0).pi = NULL
    · obtain ⟨rest, hs⟩ := supply_of_ok_real (prhs 0) w hp hok
      obtain ⟨-, -, -, -, -, -, hws, hwt, -⟩ := mexAllocate_real_ok (prhs 0) w rest hp hs
      exact ⟨_, _, hws, hwt, rfl, rfl⟩
    · obtain ⟨rest, hs⟩ := supply_of_ok_complex (prhs 0) w hp hok
      obtain ⟨-, -, -, -, -, -, hws, hwt, -⟩ := mexAllocate_complex_ok (prhs 0) w rest hp hs
      exact ⟨_, _, hws, hwt, rfl, rfl⟩
  obtain ⟨ws, wt, hws, hwt, hwso, hwto⟩ := hptr
  refine ⟨fftPlanOf (mexAllocate (prhs 0) w).1, dctPlanOf (mexAllocate (prhs 0) w).1, ws, wt, ?_⟩
  rw [callEvents_ok k nlhs prhs w hl hb hok]
  refine ⟨by simp, by simp, ?_, ?_, hwso, hwto, ?_, ?_, ?_, ?_, ?_, ?_, ?_⟩
  · by_cases hp : (prhs 0).pi = NULL <;> simp [allocEvents, hp, hB, hws]
  · by_cases hp : (prhs 0).pi = NULL <;> simp [allocEvents, hp, hB, hwt, mul_assoc]
  · simp [fftPlanOf, hws]
  · simp [fftPlanOf, hws, ptrAdd, hB, hwso]
  · intro j i hj0 hj1 hi0 hi1
    refine ⟨?_, ?_, ?_, ?_⟩
    · simp [GuruPlan.outputIndex, fftPlanOf, iodimOut, hB]; ring
    · positivity
    · nlinarith
    · nlinarith
  · nlinarith
  · simp [dctPlanOf, hwt]
  · simp [dctPlanOf, hB]
  · simp only [dctPlanOf, hB]; omega

/-- C10 at a real 2-by-2 grid (bandwidth 1): a workspace of 34 doubles with
planes at offsets 0 and 4, and the last output index, 3, inside both. -/
theorem plan_outputs_within_workspace_witness :
    (mexAllocate (exArgs exReal 0) (exWorld exSupply)).1.anyNull = false
      ∧ ∃ (p : GuruPlan) (ws : Ptr),
        Event.fftw_plan_guru_split_dft p ∈ callEvents exKit 1 1 (exArgs exReal) (exWorld exSupply)
        ∧ Event.mxMalloc (sizeofDouble * (10 * (((1 : Nat) : Int) * (1 : Nat)) + 24 * (1 : Nat)))
            (some ws) ∈ callEvents exKit 1 1 (exArgs exReal) (exWorld exSupply)
        ∧ p.ro = some ws ∧ p.io = some ⟨ws.block, 4 * (1 : Nat) * (1 : Nat)⟩
        ∧ p.outputIndex 1 1 = some (1 * (2 * ((1 : Nat) : Int)) + 1)
        ∧ (1 : Int) * (2 * ((1 : Nat) : Int)) + 1 < 4 * (1 : Nat) * (1 : Nat) := by
  refine ⟨by decide, ?_⟩
  obtain ⟨p, d, ws, wt, h1, -, h3, -, -, -, h7, h8, h9, -⟩ :=
    plan_outputs_within_workspace exKit 1 (exArgs exReal) (exWorld exSupply) 1 (by decide) rfl
      (by decide)
  have h := h9 1 1 (by decide) (by decide) (by decide) (by decide)
  exact ⟨p, ws, h1, h3, h7, h8, h.1, h.2.2.1⟩

end S2kitMex
